import Mathlib

/-!
# Verification of the NATS WebSocket bridge device SDK (C++)

A shallow embedding of the client-engine core of the `nats-websocket-bridge`
repository (`src/sdk/cpp`): the subject-pattern matchers, the envelope codec,
the reconnect policy, the heartbeat monitor, the auth manager and the client
engine state machine, together with theorems settling the specification
claims about them.

Conventions of the embedding:
* C++ `std::string` is Lean `String`; character-level operations work on
  `String.toList` so that everything reduces in the kernel.
* Machine integers (`uint32_t`, `int64_t`, millisecond `Duration` counts)
  are modelled as `Nat`/`Int`; the values involved never approach the
  overflow boundary in any theorem below.
* `double` arithmetic in the reconnect policy is modelled exactly over `ℚ`
  with the C++ truncation-toward-zero cast made explicit (exact for every
  configuration appearing in a theorem, where all intermediate values are
  binary-representable).
* Stateful engine code becomes explicit state passing: each handler is a
  function `State → State × List Action`, where `Action` records transport
  sends and user callbacks in the order the C++ code performs them.
-/

namespace Gateway

/-! ## Tokenization (`AuthManager::matchesPattern`'s `splitTokens` lambda)

`std::getline(iss, token, '.')` yields the maximal chunks between `'.'`
delimiters, except that it produces nothing for an empty input and drops a
single empty chunk after a trailing delimiter (the stream hits EOF before
`getline` can start another read). -/

/-- Split a character list on `'.'`, keeping interior empties, modelling the
repeated-`getline` loop in `AuthManager::matchesPattern`. An empty input
yields no tokens, and a trailing delimiter does not open a final empty
token. -/
def splitTokensAux : List Char → List Char → List String
  | [], acc => [String.mk acc.reverse]
  | c :: rest, acc =>
      if c = '.' then
        match rest with
        | [] => [String.mk acc.reverse]
        | _ => String.mk acc.reverse :: splitTokensAux rest []
      else
        splitTokensAux rest (c :: acc)

/-- `splitTokens` from `AuthManager::matchesPattern` (auth.cpp, lines
175–183): tokenize a subject or pattern string on `'.'`. -/
def splitTokens (s : String) : List String :=
  match s.toList with
  | [] => []
  | l => splitTokensAux l []

/-! ## The authoritative matcher (`AuthManager::matchesPattern`) -/

/-- The lockstep loop of `AuthManager::matchesPattern` (auth.cpp, lines
188–211): walk pattern tokens and subject tokens together; `">"` matches
everything remaining, `"*"` consumes one subject token, a literal must be
equal; at the end both lists must be exhausted. -/
def matchLoop : List String → List String → Bool
  | pt :: ps, st :: ss =>
      if pt = ">" then true
      else if pt = "*" then matchLoop ps ss
      else if pt = st then matchLoop ps ss
      else false
  | [], [] => true
  | _, _ => false

/-- `AuthManager::matchesPattern` (auth.cpp, lines 168–212): exact string
equality short-circuits, otherwise the tokenized lockstep walk decides. -/
def matchesPattern (pattern subject : String) : Bool :=
  if pattern = subject then true
  else matchLoop (splitTokens pattern) (splitTokens subject)

/-- The section-4.1 matcher as the specification words it: literal tokens
byte-equal, `*` consumes exactly one subject token (never zero), `>`
succeeds iff at least one subject token remains at its position (consuming
all of them), and otherwise both token lists must be exhausted
simultaneously. Stated on token lists; this is the specification-side
definition used to compare against the source-side `matchesPattern`. -/
def specLockstep : List String → List String → Bool
  | [], [] => true
  | ">" :: _, _ :: _ => true
  | "*" :: ps, _ :: ss => specLockstep ps ss
  | p :: ps, s :: ss => if p = s then specLockstep ps ss else false
  | _, _ => false

/-! ## The simplified dispatch matcher (`GatewayClient::Impl::matchesSubject`)

The dispatch path of the engine does not use the authoritative matcher: it
checks exact equality, then a raw string-prefix test when the pattern ends
in `'>'`, and treats any pattern containing `'*'` as matching every
subject ("let the gateway filter"). -/

/-- `GatewayClient::Impl::matchesSubject` (gateway_client.cpp, lines
473–485): the simplified matcher used by the dispatch path. -/
def matchesSubject (pattern subject : String) : Bool :=
  if pattern = subject then true
  else if pattern.toList.getLast? = some '>' then
    List.isPrefixOf pattern.toList.dropLast subject.toList
  else if pattern.toList.contains '*' then true
  else false

/-- A subscription record (message.h `Subscription`): id, pattern (the
C++ field is named `subject`), and active flag. The handler itself is kept
abstract; dispatch is modelled by the list of invoked subscription ids. -/
structure Subscription where
  id : Nat
  subject : String
  active : Bool
  deriving DecidableEq, Repr

/-- `GatewayClient::Impl::handleSubscriptionMessage` (gateway_client.cpp,
lines 437–448): iterate the subscription map in ascending-id order and
invoke the handler of every active subscription whose pattern passes
`matchesSubject`. The result lists the invoked subscription ids in
invocation order. -/
def dispatchInvocations (subs : List Subscription) (subject : String) : List Nat :=
  (subs.filter (fun sub => sub.active && matchesSubject sub.subject subject)).map (·.id)

/-! ## Reconnect policy (`ReconnectPolicy`, reconnect_policy.cpp) -/

/-- The state of a `ReconnectPolicy` object: the configuration copied from
`ReconnectConfig` plus the mutable `attemptCount_`. Delays are millisecond
counts; `backoffMultiplier` and `maxJitterFraction` are the `double`
fields, modelled exactly over `ℚ`. -/
structure PolicyState where
  enabled : Bool
  initialDelay : Nat
  maxDelay : Nat
  backoffMultiplier : ℚ
  jitterEnabled : Bool
  maxJitterFraction : ℚ
  maxAttempts : Nat
  resubscribe : Bool
  attemptCount : Nat
  deriving DecidableEq, Repr

/-- `static_cast<long long>` applied to a nonnegative `double`: truncation
toward zero, which on `ℚ` is `num.tdiv den`. -/
def castTrunc (q : ℚ) : ℤ :=
  q.num.tdiv (q.den : ℤ)

/-- `ReconnectPolicy::shouldReconnect` (reconnect_policy.cpp, lines 50–60):
false when disabled, false when a positive `maxAttempts` has been reached,
true otherwise. -/
def shouldReconnect (p : PolicyState) : Bool :=
  if p.enabled = false then false
  else if 0 < p.maxAttempts ∧ p.maxAttempts ≤ p.attemptCount then false
  else true

/-- `ReconnectPolicy::calculateDelay` (reconnect_policy.cpp, lines 66–79):
the first attempt returns `initialDelay_` unconditionally; later attempts
return `initialDelay * multiplier^(attemptCount-1)` capped at `maxDelay`,
truncated to a whole millisecond count by the `long long` cast. -/
def calculateDelay (p : PolicyState) : ℤ :=
  if p.attemptCount ≤ 1 then (p.initialDelay : ℤ)
  else castTrunc (min ((p.initialDelay : ℚ) * p.backoffMultiplier ^ (p.attemptCount - 1))
    ((p.maxDelay : ℚ)))

/-- `ReconnectPolicy::addJitter` (reconnect_policy.cpp, lines 81–97): the
uniform random draw from `[-maxJitterFraction, maxJitterFraction]` is made
an explicit argument `jf`; the jittered value is clamped below by 1 and
above by `maxDelay`. -/
def addJitter (p : PolicyState) (delay : ℤ) (jf : ℚ) : ℤ :=
  if p.jitterEnabled = false ∨ p.maxJitterFraction ≤ 0 then delay
  else min (max 1 (castTrunc ((delay : ℚ) * (1 + jf)))) ((p.maxDelay : ℤ))

/-- `ReconnectPolicy::getNextDelay` (reconnect_policy.cpp, lines 34–48):
returns 0 when reconnection should not continue; otherwise increments
`attemptCount_`, computes the backoff delay and applies jitter when
enabled. The sampled jitter draw is the explicit argument `jf`. -/
def getNextDelay (p : PolicyState) (jf : ℚ) : ℤ × PolicyState :=
  if shouldReconnect p = false then (0, p)
  else
    let p' := { p with attemptCount := p.attemptCount + 1 }
    let d := calculateDelay p'
    let d := if p'.jitterEnabled then addJitter p' d jf else d
    (d, p')

/-- `ReconnectPolicy::reset` (reconnect_policy.cpp, lines 62–64). -/
def policyReset (p : PolicyState) : PolicyState :=
  { p with attemptCount := 0 }

/-- Iterate `getNextDelay` (with jitter draw 0) the given number of times,
collecting the returned delays in order. -/
def runPolicy (p : PolicyState) : Nat → List ℤ × PolicyState
  | 0 => ([], p)
  | n + 1 =>
      let r := getNextDelay p 0
      let rest := runPolicy r.2 n
      (r.1 :: rest.1, rest.2)

/-- The reconnect configuration of end-to-end scenario 3 of the
specification: initialDelay 100 ms, multiplier 2, maxDelay 800 ms,
maxAttempts 5, jitter disabled. -/
def scenario3Policy : PolicyState :=
  { enabled := true
    initialDelay := 100
    maxDelay := 800
    backoffMultiplier := 2
    jitterEnabled := false
    maxJitterFraction := 0
    maxAttempts := 5
    resubscribe := true
    attemptCount := 0 }

/-! ## JSON values (`JsonValue`, message.h)

`JsonValue` and `nlohmann::json` hold the same tree shape; the conversion
helpers `jsonValueToNlohmann` / `nlohmannToJsonValue` in protocol.cpp are
structure-preserving, so a single tree type models both. The parse/print
step of `nlohmann::json` itself (`dump` / `parse`) is an external
collaborator per section 1 of the specification and is not modelled: the
codec is verified from JSON tree to `Message` and back. Objects carry
their fields as association lists; lookups take the first match, which
coincides with `std::map` behaviour because every object constructed by
the codec has distinct keys. -/

/-- A JSON tree: the value model of message.h `JsonValue`. `double` values
are carried exactly as rationals. -/
inductive Json where
  | null : Json
  | bool (b : Bool) : Json
  | int (n : ℤ) : Json
  | double (q : ℚ) : Json
  | str (s : String) : Json
  | arr (elems : List Json) : Json
  | obj (fields : List (String × Json)) : Json

/-- `JsonValue::contains` (message.h, lines 85–87): true only for objects
holding the key. -/
def Json.containsKey : Json → String → Bool
  | .obj fields, key => (fields.lookup key).isSome
  | _, _ => false

/-- `JsonValue::operator[] const` (message.h, lines 79–83): field lookup,
returning the static null value when the key is absent or the value is not
an object. -/
def Json.getKey : Json → String → Json
  | .obj fields, key => (fields.lookup key).getD Json.null
  | _, _ => Json.null

/-- `JsonValue::asBool` (message.h): the stored `boolValue_`, which is
`false` unless the value was constructed as a Bool. -/
def Json.asBool : Json → Bool
  | .bool b => b
  | _ => false

/-- `JsonValue::asString` (message.h): the stored `stringValue_`, empty
unless the value was constructed as a String. -/
def Json.asString : Json → String
  | .str s => s
  | _ => ""

/-- `JsonValue::isNull`. -/
def Json.isNull : Json → Bool
  | .null => true
  | _ => false

/-- `JsonValue::isObject`. -/
def Json.isObject : Json → Bool
  | .obj _ => true
  | _ => false

/-- `JsonValue::isArray`. -/
def Json.isArray : Json → Bool
  | .arr _ => true
  | _ => false

/-- `JsonValue::isString`. -/
def Json.isString : Json → Bool
  | .str _ => true
  | _ => false

/-! ## Messages (message.h `Message`)

`MessageType` is `enum class MessageType : int`; `Protocol::deserialize`
installs `static_cast<MessageType>(j["type"].get<int>())` without a range
check, so the field is modelled as the raw integer it holds. Timestamps
(`std::chrono::system_clock::time_point`) are millisecond counts since the
Unix epoch. -/

/-- The wire values of `MessageType` (types.h, lines 45–57). -/
def mtPublish : ℤ := 0
/-- `MessageType::Subscribe`. -/
def mtSubscribe : ℤ := 1
/-- `MessageType::Unsubscribe`. -/
def mtUnsubscribe : ℤ := 2
/-- `MessageType::Message`. -/
def mtMessage : ℤ := 3
/-- `MessageType::Ack`. -/
def mtAck : ℤ := 6
/-- `MessageType::Error`. -/
def mtError : ℤ := 7
/-- `MessageType::Auth`. -/
def mtAuth : ℤ := 8
/-- `MessageType::Ping`. -/
def mtPing : ℤ := 9
/-- `MessageType::Pong`. -/
def mtPong : ℤ := 10

/-- message.h `Message`: the envelope record. Defaults mirror the C++
member initializers (`type = MessageType::Publish`, empty subject, null
payload, absent optionals). -/
structure Message where
  type : ℤ := 0
  subject : String := ""
  payload : Json := .null
  correlationId : Option String := none
  timestamp : Option ℕ := none
  deviceId : Option String := none

/-- `Message::subscribe` (message.h, lines 168–173). -/
def Message.subscribeMsg (subject : String) : Message :=
  { type := mtSubscribe, subject := subject }

/-- `Message::ping` (message.h, lines 184–188). -/
def Message.pingMsg : Message :=
  { type := mtPing }

/-! ## Auth manager (`AuthManager`, auth.cpp) -/

/-- `AuthState` (auth.h). -/
inductive AuthState where
  | NotAuthenticated
  | Authenticating
  | Authenticated
  | Failed
  deriving DecidableEq, Repr

/-- `DeviceInfo` (types.h): identity and permissions delivered by a
successful auth response. -/
structure DeviceInfo where
  deviceId : String := ""
  deviceType : String := ""
  isConnected : Bool := false
  allowedPublishTopics : List String := []
  allowedSubscribeTopics : List String := []
  deriving DecidableEq, Repr

/-- The device extraction of `AuthManager::processAuthResponse` (auth.cpp,
lines 47–80): copy the scalar fields when present and keep only the string
entries of the topic arrays. -/
def extractDevice (deviceObj : Json) : DeviceInfo :=
  { deviceId := if deviceObj.containsKey "deviceId" then
      (deviceObj.getKey "deviceId").asString else ""
    deviceType := if deviceObj.containsKey "deviceType" then
      (deviceObj.getKey "deviceType").asString else ""
    isConnected := if deviceObj.containsKey "isConnected" then
      (deviceObj.getKey "isConnected").asBool else false
    allowedPublishTopics :=
      if deviceObj.containsKey "allowedPublishTopics" ∧
          (deviceObj.getKey "allowedPublishTopics").isArray then
        match deviceObj.getKey "allowedPublishTopics" with
        | .arr topics => (topics.filter (·.isString)).map (·.asString)
        | _ => []
      else []
    allowedSubscribeTopics :=
      if deviceObj.containsKey "allowedSubscribeTopics" ∧
          (deviceObj.getKey "allowedSubscribeTopics").isArray then
        match deviceObj.getKey "allowedSubscribeTopics" with
        | .arr topics => (topics.filter (·.isString)).map (·.asString)
        | _ => []
      else []}

/-- `AuthResult` (auth.h): outcome record of processing an auth
response. -/
structure AuthResult where
  success : Bool := false
  message : String := ""
  deviceInfo : Option DeviceInfo := none

/-- `AuthManager::processAuthResponse` (auth.cpp, lines 27–87). -/
def processAuthResponse (message : Message) : AuthResult :=
  if message.type ≠ mtAuth then
    { success := false, message := "Expected Auth message type" }
  else
    let payload := message.payload
    let success := if payload.containsKey "success" then
      (payload.getKey "success").asBool else false
    let msgText := if payload.containsKey "message" then
      (payload.getKey "message").asString else ""
    let deviceInfo :=
      if success ∧ payload.containsKey "device" ∧ (payload.getKey "device").isObject then
        some (extractDevice (payload.getKey "device"))
      else none
    { success := success, message := msgText, deviceInfo := deviceInfo }

/-- The state of an `AuthManager` object: handshake state plus the stored
device identity. The completion callback is the engine lambda that does
nothing, so it is not modelled. -/
structure AuthMgr where
  state : AuthState := .NotAuthenticated
  deviceInfo : Option DeviceInfo := none
  deriving DecidableEq, Repr

/-- `AuthManager::startAuth` (auth.cpp, lines 89–92). -/
def authStartAuth (a : AuthMgr) : AuthMgr :=
  { a with state := .Authenticating }

/-- `AuthManager::handleMessage` (auth.cpp, lines 94–118): returns whether
the message was consumed together with the updated manager. -/
def authHandleMessage (a : AuthMgr) (message : Message) : Bool × AuthMgr :=
  if a.state ≠ .Authenticating then (false, a)
  else if message.type ≠ mtAuth then (false, a)
  else
    let result := processAuthResponse message
    if result.success then
      (true, { a with state := .Authenticated, deviceInfo := result.deviceInfo })
    else
      (true, { a with state := .Failed })

/-- `AuthManager::reset` (auth.cpp, lines 120–124). -/
def authReset (_ : AuthMgr) : AuthMgr :=
  { state := .NotAuthenticated, deviceInfo := none }

/-- `AuthManager::isAuthenticated` (auth.h). -/
def authIsAuthenticated (a : AuthMgr) : Bool :=
  a.state = .Authenticated

/-! ## Subject validation (`Protocol::isValidSubject`, protocol.cpp) -/

/-- One character of the validation regex `^[a-zA-Z0-9.*>_-]+$`. -/
def isValidSubjectChar (c : Char) : Bool :=
  ('a' ≤ c ∧ c ≤ 'z') ∨ ('A' ≤ c ∧ c ≤ 'Z') ∨ ('0' ≤ c ∧ c ≤ '9') ∨
    c = '.' ∨ c = '*' ∨ c = '>' ∨ c = '_' ∨ c = '-'

/-- Whether two consecutive `'.'` characters occur (`find("..")`). -/
def hasConsecutiveDots : List Char → Bool
  | c1 :: c2 :: rest =>
      if c1 = '.' ∧ c2 = '.' then true else hasConsecutiveDots (c2 :: rest)
  | _ => false

/-- `Protocol::isValidSubject` (protocol.cpp, lines 254–292): non-empty,
at most 256 characters, no leading/trailing dot, no consecutive dots, only
characters of the class `[a-zA-Z0-9.*>_-]`, and `'>'` may occur only as
the final character, preceded by `'.'` unless it stands alone. -/
def isValidSubject (subject : String) : Bool :=
  let l := subject.toList
  if l.isEmpty then false
  else if 256 < l.length then false
  else if l.head? = some '.' ∨ l.getLast? = some '.' then false
  else if hasConsecutiveDots l then false
  else if ¬ l.all isValidSubjectChar then false
  else if l.contains '>' then
    let gtPos := l.takeWhile (· ≠ '>') |>.length
    if gtPos ≠ l.length - 1 then false
    else if 0 < gtPos ∧ l.get? (gtPos - 1) ≠ some '.' then false
    else true
  else true

/-! ## The client engine (`GatewayClient::Impl`, gateway_client.cpp)

The engine is modelled as explicit state passing. Each C++ handler becomes
a function `EngineState → EngineState × List Action`; the `Action` list
records, in program order, the frames handed to the transport and the user
callbacks invoked. The transport itself is the external collaborator:
its callbacks are the events fed into the step function, and the outcomes
of its fallible calls (`send`, `connect`) are explicit arguments. -/

/-- `ConnectionState` (types.h, lines 82–90). -/
inductive ConnectionState where
  | Disconnected
  | Connecting
  | Authenticating
  | Connected
  | Reconnecting
  | Closing
  | Closed
  deriving DecidableEq, Repr

/-- `ErrorCode` values the engine model distinguishes (error.h). -/
inductive ErrorCode where
  | NotConnected
  | InvalidSubject
  | SendFailed
  | InternalError
  | MalformedJson
  deriving DecidableEq, Repr

/-- Observable effects of an engine step, in the order the C++ code
performs them: transport sends, transport control calls, user callbacks,
and subscription-handler invocations. -/
inductive Action where
  | sendFrame (m : Message)
  | transportDisconnect (reason : String)
  | transportConnectAttempt
  | sleepFor (ms : ℤ)
  | cbConnected
  | cbDisconnected (reason : String)
  | cbReconnecting (attempt : Nat)
  | cbStateChanged (oldState newState : ConnectionState)
  | cbError (code : ErrorCode) (msg : String)
  | invokeHandler (subId : Nat)

/-- `HeartbeatConfig` (config.h, lines 71–83), millisecond counts. -/
structure HeartbeatCfg where
  enabled : Bool := true
  interval : Nat := 30000
  timeout : Nat := 10000
  missedPongsBeforeDisconnect : Nat := 2
  deriving DecidableEq, Repr

/-- The state of a `GatewayClient::Impl`: connection state, auth manager,
reconnect policy, heartbeat configuration and bookkeeping, the
subscription map (kept in ascending-id order, as `std::map` iterates), the
id allocator, and the auth-request fields of the configuration. Steady
clock instants are millisecond counts, with 0 standing for the
default-constructed `time_point{}`. -/
structure EngineState where
  conn : ConnectionState := .Disconnected
  auth : AuthMgr := {}
  policy : PolicyState
  hb : HeartbeatCfg := {}
  subs : List Subscription := []
  nextSubscriptionId : Nat := 1
  missedPongs : Nat := 0
  lastPingSent : Nat := 0
  lastPongReceived : Nat := 0
  cfgDeviceId : String := ""
  cfgAuthToken : String := ""
  cfgDeviceType : String := "sensor"

/-- `GatewayClient::Impl::resubscribeAll` (gateway_client.cpp, lines
571–585): nothing when the policy's resubscribe flag is off; otherwise a
Subscribe frame per active subscription, in map order. -/
def resubscribeAll (s : EngineState) : EngineState × List Action :=
  if s.policy.resubscribe = false then (s, [])
  else
    (s, (s.subs.filter (·.active)).map (fun sub => .sendFrame (.subscribeMsg sub.subject)))

/-- `GatewayClient::Impl::setState` (gateway_client.cpp, lines 587–603):
exchange the state; on a real change fire `onStateChanged` and, when the
new state is Connected, run `resubscribeAll`. -/
def setState (s : EngineState) (newState : ConnectionState) : EngineState × List Action :=
  let oldState := s.conn
  let s := { s with conn := newState }
  if oldState = newState then (s, [])
  else
    let acts := [Action.cbStateChanged oldState newState]
    if newState = .Connected then
      ((resubscribeAll s).1, acts ++ (resubscribeAll s).2)
    else (s, acts)

/-- `AuthManager::createAuthRequest` (auth.cpp, lines 13–25). -/
def createAuthRequest (s : EngineState) : Message :=
  { type := mtAuth
    payload := .obj [("deviceId", .str s.cfgDeviceId), ("token", .str s.cfgAuthToken),
      ("deviceType", .str s.cfgDeviceType)] }

/-- `GatewayClient::Impl::handleAuthMessage` (gateway_client.cpp, lines
418–435): feed the message to the auth manager; on success reset the
backoff, enter Connected (which re-subscribes) and fire `onConnected`; on
failure enter Disconnected. -/
def handleAuthMessage (s : EngineState) (msg : Message) : EngineState × List Action :=
  let handled := (authHandleMessage s.auth msg).1
  let a' := (authHandleMessage s.auth msg).2
  let s := { s with auth := a' }
  if handled then
    if authIsAuthenticated a' then
      let s := { s with policy := policyReset s.policy }
      let r := setState s .Connected
      (r.1, r.2 ++ [Action.cbConnected])
    else
      setState s .Disconnected
  else (s, [])

/-- `GatewayClient::Impl::handleSubscriptionMessage` (gateway_client.cpp,
lines 437–448), as handler invocations in map order. -/
def handleSubscriptionMessage (s : EngineState) (msg : Message) :
    EngineState × List Action :=
  (s, (dispatchInvocations s.subs msg.subject).map Action.invokeHandler)

/-- `GatewayClient::Impl::handlePongMessage` (gateway_client.cpp, lines
468–471). -/
def handlePongMessage (s : EngineState) (now : Nat) : EngineState × List Action :=
  ({ s with lastPongReceived := now, missedPongs := 0 }, [])

/-- `GatewayClient::Impl::handleErrorMessage` (gateway_client.cpp, lines
454–466). -/
def handleErrorMessage (s : EngineState) (msg : Message) : EngineState × List Action :=
  let errorMsg := if msg.payload.containsKey "message" then
    (msg.payload.getKey "message").asString else "Unknown error"
  (s, [Action.cbError .InternalError errorMsg])

/-- `GatewayClient::Impl::handleMessage` (gateway_client.cpp, lines
376–416), after a successful deserialize: branch on the message type.
`now` is the steady-clock instant of the pong handler. -/
def handleMessage (s : EngineState) (msg : Message) (now : Nat) :
    EngineState × List Action :=
  if msg.type = mtAuth then handleAuthMessage s msg
  else if msg.type = mtMessage then handleSubscriptionMessage s msg
  else if msg.type = mtAck then (s, [])
  else if msg.type = mtError then handleErrorMessage s msg
  else if msg.type = mtPong then handlePongMessage s now
  else (s, [])

/-- The transport `onDisconnected` lambda installed by
`GatewayClient::Impl::setupTransportCallbacks` (gateway_client.cpp, lines
346–360): enter Reconnecting when the policy is enabled and allows another
attempt, otherwise enter Disconnected and fire `onDisconnected`. The auth
manager is not touched. -/
def transportOnDisconnected (s : EngineState) (reason : String) :
    EngineState × List Action :=
  if s.policy.enabled = true ∧ shouldReconnect s.policy = true then
    setState s .Reconnecting
  else
    let r := setState s .Disconnected
    (r.1, r.2 ++ [Action.cbDisconnected reason])

/-- The transport `onConnected` lambda (gateway_client.cpp, lines
340–344): enter Authenticating. -/
def transportOnConnected (s : EngineState) : EngineState × List Action :=
  setState s .Authenticating

/-- `GatewayClient::Impl::disconnect` (gateway_client.cpp, lines 104–121):
no-op when already Disconnected or Closed; otherwise disable the reconnect
policy, pass through Closing, close the transport, reset the auth manager
and finish in Closed. -/
def disconnectCall (s : EngineState) : EngineState × List Action :=
  if s.conn = .Disconnected ∨ s.conn = .Closed then (s, [])
  else
    let s := { s with policy := { s.policy with enabled := false } }
    let r1 := setState s .Closing
    let s := { r1.1 with auth := authReset r1.1.auth }
    let r2 := setState s .Closed
    (r2.1, r1.2 ++ [Action.transportDisconnect "Client disconnect"] ++ r2.2)

/-- The opening part of `GatewayClient::Impl::doAuthentication`
(gateway_client.cpp, lines 487–505): enter Authenticating, start the auth
manager's handshake and send the auth request. The blocking wait that
follows is driven by the inbound events. -/
def beginAuthentication (s : EngineState) : EngineState × List Action :=
  let r := setState s .Authenticating
  let s := { r.1 with auth := authStartAuth r.1.auth }
  (s, r.2 ++ [Action.sendFrame (createAuthRequest s)])

/-- The state-guarded opening of `GatewayClient::Impl::connect`
(gateway_client.cpp, lines 40–61): already Connected or mid-handshake is a
no-op here; otherwise enter Connecting and ask the transport to open. -/
def connectCall (s : EngineState) : EngineState × List Action :=
  if s.conn = .Connected ∨ s.conn = .Connecting ∨ s.conn = .Authenticating then (s, [])
  else
    let r := setState s .Connecting
    (r.1, r.2 ++ [Action.transportConnectAttempt])

/-- `GatewayClient::Impl::subscribe` (gateway_client.cpp, lines 175–211):
reject when not Connected, reject an invalid subject, otherwise allocate
the next id, insert the subscription, and send the Subscribe frame;
`sendOk` is the transport's verdict — on failure the entry is erased again
(the id allocator stays advanced). -/
def subscribeCall (s : EngineState) (subject : String) (sendOk : Bool) :
    Except ErrorCode Nat × EngineState × List Action :=
  if s.conn ≠ .Connected then (.error .NotConnected, s, [])
  else if isValidSubject subject = false then (.error .InvalidSubject, s, [])
  else
    let id := s.nextSubscriptionId
    let inserted := { s with nextSubscriptionId := id + 1
                             subs := s.subs ++ [⟨id, subject, true⟩] }
    if sendOk then
      (.ok id, inserted, [Action.sendFrame (.subscribeMsg subject)])
    else
      (.error .SendFailed, { inserted with subs := s.subs },
        [Action.sendFrame (.subscribeMsg subject)])

/-- `GatewayClient::Impl::processHeartbeat` (gateway_client.cpp, lines
521–543): send a ping when the interval has elapsed since the last ping;
then, if a pong has ever been received and the time since it exceeds the
timeout, count a missed pong, and once the count reaches the threshold
request a transport disconnect with reason "Heartbeat timeout". -/
def processHeartbeat (s : EngineState) (now : Nat) : EngineState × List Action :=
  let pinged :=
    if s.hb.interval ≤ now - s.lastPingSent then
      ({ s with lastPingSent := now }, [Action.sendFrame Message.pingMsg])
    else (s, [])
  let s := pinged.1
  let pingActs := pinged.2
  if s.lastPongReceived ≠ 0 then
    if s.hb.timeout < now - s.lastPongReceived then
      let s := { s with missedPongs := s.missedPongs + 1 }
      if s.hb.missedPongsBeforeDisconnect ≤ s.missedPongs then
        (s, pingActs ++ [Action.transportDisconnect "Heartbeat timeout"])
      else (s, pingActs)
    else (s, pingActs)
  else (s, pingActs)

/-- `GatewayClient::Impl::processReconnection` (gateway_client.cpp, lines
545–569): when the policy forbids another attempt, enter Disconnected;
otherwise draw the next delay (jitter draw 0 — every theorem below runs
with jitter disabled), fire `onReconnecting` with the new attempt count,
sleep for the delay and ask the transport to connect (a failure is only
logged; the next poll retries). -/
def processReconnection (s : EngineState) : EngineState × List Action :=
  if shouldReconnect s.policy = false then
    setState s .Disconnected
  else
    let r := getNextDelay s.policy 0
    let s := { s with policy := r.2 }
    (s, [Action.cbReconnecting r.2.attemptCount, Action.sleepFor r.1,
      Action.transportConnectAttempt])

/-- `GatewayClient::Impl::poll` (gateway_client.cpp, lines 269–281) minus
the transport drain (inbound frames are separate events): heartbeat
processing in Connected, reconnection processing in Reconnecting. -/
def pollStep (s : EngineState) (now : Nat) : EngineState × List Action :=
  let r1 :=
    if s.conn = .Connected ∧ s.hb.enabled = true then processHeartbeat s now
    else (s, [])
  let r2 :=
    if r1.1.conn = .Reconnecting then processReconnection r1.1
    else (r1.1, [])
  (r2.1, r1.2 ++ r2.2)

/-- The events that drive the engine: public method calls, transport
callbacks, and poll ticks. Fallible transport outcomes travel with the
event. -/
inductive Event where
  | userConnect
  | beginAuth
  | transportConnected
  | transportClosed (reason : String)
  | inbound (msg : Message) (now : Nat)
  | userDisconnect
  | userSubscribe (subject : String) (sendOk : Bool)
  | poll (now : Nat)

/-- One engine step: route an event to its handler. -/
def step (s : EngineState) (e : Event) : EngineState × List Action :=
  match e with
  | .userConnect => connectCall s
  | .beginAuth => beginAuthentication s
  | .transportConnected => transportOnConnected s
  | .transportClosed reason => transportOnDisconnected s reason
  | .inbound msg now => handleMessage s msg now
  | .userDisconnect => disconnectCall s
  | .userSubscribe subject sendOk => (subscribeCall s subject sendOk).2
  | .poll now => pollStep s now

/-- Run a sequence of events, concatenating the emitted actions. -/
def runEvents (s : EngineState) : List Event → EngineState × List Action
  | [] => (s, [])
  | e :: es =>
      let r := step s e
      let rest := runEvents r.1 es
      (rest.1, r.2 ++ rest.2)

/-- Whether an action is a transport frame send. -/
def Action.isSendFrame : Action → Bool
  | .sendFrame _ => true
  | _ => false

/-- Whether an action is an `onReconnecting` callback. -/
def Action.isCbReconnecting : Action → Bool
  | .cbReconnecting _ => true
  | _ => false

/-- The defaults of `ReconnectConfig` (config.h, lines 42–66) as a policy
state with no attempts made. -/
def defaultPolicy : PolicyState :=
  { enabled := true
    initialDelay := 1000
    maxDelay := 30000
    backoffMultiplier := 2
    jitterEnabled := true
    maxJitterFraction := 1 / 4
    maxAttempts := 0
    resubscribe := true
    attemptCount := 0 }

/-- A freshly constructed client (`GatewayClient::Impl::Impl`): state
Disconnected, id allocator at 1, default sub-configurations. -/
def initialEngine : EngineState :=
  { policy := defaultPolicy, cfgDeviceId := "sensor-1", cfgAuthToken := "t" }

/-- A successful auth response from the gateway: `success = true` with a
device object. -/
def authOkMsg : Message :=
  { type := mtAuth
    payload := .obj [("success", .bool true),
      ("device", .obj [("deviceId", .str "sensor-1")])] }

/-- The event trace of a connect, successful handshake, and transport
loss. -/
def lossTrace : List Event :=
  [.userConnect, .transportConnected, .beginAuth, .inbound authOkMsg 0,
    .transportClosed "transport lost"]

/-- An engine mid-reconnect-burst under the scenario-3 policy. -/
def s3Engine : EngineState :=
  { policy := scenario3Policy, conn := .Reconnecting }

/-- The engine state after the scenario-3 burst exhausts its five
attempts. -/
def s3Final : EngineState :=
  { s3Engine with conn := ConnectionState.Disconnected
                  policy := { scenario3Policy with attemptCount := 5 } }

/-- A policy whose initial delay exceeds its maximum delay: exposes that
the first attempt is returned uncapped. -/
def uncappedPolicy : PolicyState :=
  { enabled := true
    initialDelay := 1000
    maxDelay := 500
    backoffMultiplier := 2
    jitterEnabled := false
    maxJitterFraction := 0
    maxAttempts := 0
    resubscribe := true
    attemptCount := 0 }

/-- An authenticating engine holding one active subscription whose policy
has `resubscribeOnReconnect` disabled. -/
def resubOffEngine : EngineState :=
  { policy := { defaultPolicy with resubscribe := false }
    conn := .Authenticating
    auth := { state := .Authenticating }
    subs := [⟨1, "a.b", true⟩] }

/-- An authenticating engine holding the two subscriptions of scenario 4
("a.b" then "a.c"), with resubscription enabled. -/
def resubOnEngine : EngineState :=
  { policy := defaultPolicy
    conn := .Authenticating
    auth := { state := .Authenticating }
    subs := [⟨1, "a.b", true⟩, ⟨2, "a.c", true⟩]
    nextSubscriptionId := 3 }

/-- A connected engine whose last pong (at 50 ms) arrived after the last
ping (at 0 ms), with heartbeat interval 1000 ms and timeout 100 ms. -/
def hbEngine : EngineState :=
  { policy := defaultPolicy
    conn := .Connected
    hb := { enabled := true, interval := 1000, timeout := 100, missedPongsBeforeDisconnect := 2 }
    lastPingSent := 0
    lastPongReceived := 50 }

/-- A connected engine whose reconnect policy has been disabled by an
explicit `disconnect()` earlier in its life. -/
def disabledEngine : EngineState :=
  { policy := { defaultPolicy with enabled := false }, conn := .Connected }

/-! ## Timestamps (protocol.cpp, lines 83–115 and 294–321)

`Timestamp` (`std::chrono::system_clock::time_point`) is a millisecond
count since the Unix epoch. `serialize` converts an explicit timestamp
with `to_time_t` (truncation to whole seconds) and prints it with
`gmtime`/`put_time("%Y-%m-%dT%H:%M:%S")` plus a `'Z'` — with no
millisecond part, unlike `getTimestamp()`, which appends `.mmm`.
`parseTimestamp` reads the six fields with `get_time` (trailing characters
ignored) and converts with `mktime`; the model fixes the environment to
UTC, where `mktime` is the inverse civil-calendar conversion (`timegm`).
The calendar functions below model `gmtime`/`timegm` for times at or after
the epoch; the parser models `get_time` on the fixed-width grammar that
both this codec and the gateway emit. -/

/-- Gregorian leap-year rule. -/
def isLeap (y : ℕ) : Bool :=
  (y % 4 = 0 ∧ y % 100 ≠ 0) ∨ y % 400 = 0

/-- Days in a civil year. -/
def daysInYear (y : ℕ) : ℕ :=
  if isLeap y then 366 else 365

/-- Month lengths of a civil year. -/
def monthLengths (leap : Bool) : List ℕ :=
  [31, if leap then 29 else 28, 31, 30, 31, 30, 31, 31, 30, 31, 30, 31]

/-- March forward from year `y`, consuming whole years from a day count
(`gmtime`'s year loop); the fuel is an upper bound on the iterations,
rendering the recursion structural. -/
def findYear : ℕ → ℕ → ℕ → ℕ × ℕ
  | 0, y, rem => (y, rem)
  | fuel + 1, y, rem =>
      if rem < daysInYear y then (y, rem)
      else findYear fuel (y + 1) (rem - daysInYear y)

/-- March through a month-length table, consuming whole months from a day
count (`gmtime`'s month loop). -/
def findMonth : List ℕ → ℕ → ℕ → ℕ × ℕ
  | [], m, rem => (m, rem)
  | len :: rest, m, rem =>
      if rem < len then (m, rem)
      else findMonth rest (m + 1) (rem - len)

/-- The broken-down time `std::tm` (the fields the codec uses), with
month and day 1-based. -/
structure Tm where
  year : ℕ
  month : ℕ
  day : ℕ
  hour : ℕ
  minute : ℕ
  second : ℕ
  deriving DecidableEq, Repr

/-- `gmtime` for seconds at or after the epoch. -/
def secsToTm (secs : ℕ) : Tm :=
  let days := secs / 86400
  let tod := secs % 86400
  let yr := findYear (days + 1) 1970 days
  let mr := findMonth (monthLengths (isLeap yr.1)) 1 yr.2
  { year := yr.1, month := mr.1, day := mr.2 + 1
    hour := tod / 3600, minute := tod % 3600 / 60, second := tod % 60 }

/-- Days between the epoch and the start of year `y` (for `y ≥ 1970`). -/
def daysBeforeYear : ℕ → ℕ
  | 0 => 0
  | y + 1 => if y + 1 ≤ 1970 then 0 else daysBeforeYear y + daysInYear y

/-- Days between the start of the year and the start of month `m`. -/
def daysBeforeMonth (leap : Bool) (m : ℕ) : ℕ :=
  ((monthLengths leap).take (m - 1)).sum

/-- `timegm` — `mktime` under a UTC environment: seconds since the epoch
of a broken-down time. -/
def tmToSecs (tm : Tm) : ℕ :=
  (daysBeforeYear tm.year + daysBeforeMonth (isLeap tm.year) tm.month + (tm.day - 1)) * 86400
    + tm.hour * 3600 + tm.minute * 60 + tm.second

/-- A decimal digit character. -/
def digitChar (n : ℕ) : Char :=
  Char.ofNat (48 + n)

/-- Two-digit zero-padded decimal (`put_time` `%m`, `%d`, `%H`, `%M`,
`%S`). -/
def pad2 (n : ℕ) : List Char :=
  [digitChar (n / 10), digitChar (n % 10)]

/-- Three-digit zero-padded decimal (the millisecond part of
`getTimestamp`). -/
def pad3 (n : ℕ) : List Char :=
  [digitChar (n / 100), digitChar (n / 10 % 10), digitChar (n % 10)]

/-- Four-digit decimal (`put_time` `%Y` for years 1000–9999). -/
def pad4 (n : ℕ) : List Char :=
  [digitChar (n / 1000), digitChar (n / 100 % 10), digitChar (n / 10 % 10), digitChar (n % 10)]

/-- `put_time(gmtime(t), "%Y-%m-%dT%H:%M:%S")`. -/
def renderTm (tm : Tm) : List Char :=
  pad4 tm.year ++ '-' :: pad2 tm.month ++ '-' :: pad2 tm.day ++
    'T' :: pad2 tm.hour ++ ':' :: pad2 tm.minute ++ ':' :: pad2 tm.second

/-- The explicit-timestamp wire string of `Protocol::serialize`
(protocol.cpp, lines 100–105): seconds precision plus `'Z'`. -/
def formatTimestampSec (secs : ℕ) : String :=
  String.mk (renderTm (secsToTm secs) ++ ['Z'])

/-- `Protocol::getTimestamp` (protocol.cpp, lines 294–305): the current
instant with a `.mmm` millisecond part. -/
def getTimestampStr (nowMs : ℕ) : String :=
  String.mk (renderTm (secsToTm (nowMs / 1000)) ++ '.' :: pad3 (nowMs % 1000) ++ ['Z'])

/-- The value of a decimal digit character. -/
def digitVal : Char → Option ℕ
  | c => if '0' ≤ c ∧ c ≤ '9' then some (c.toNat - 48) else none

/-- Two decimal digits. -/
def digit2 (a b : Char) : Option ℕ :=
  match digitVal a, digitVal b with
  | some x, some y => some (10 * x + y)
  | _, _ => none

/-- Four decimal digits. -/
def digit4 (a b c d : Char) : Option ℕ :=
  match digit2 a b, digit2 c d with
  | some hi, some lo => some (100 * hi + lo)
  | _, _ => none

/-- `Protocol::parseTimestamp` (protocol.cpp, lines 307–321): `get_time`
with `"%Y-%m-%dT%H:%M:%S"` — fixed-width fields, trailing characters
(such as `.mmmZ` or `Z`) ignored — followed by `mktime` under UTC.
Returns seconds since the epoch, or none for a malformed string. -/
def parseTimestamp (s : String) : Option ℕ :=
  match s.toList with
  | y1 :: y2 :: y3 :: y4 :: '-' :: mo1 :: mo2 :: '-' :: d1 :: d2 ::
      'T' :: h1 :: h2 :: ':' :: mi1 :: mi2 :: ':' :: s1 :: s2 :: _ =>
      match digit4 y1 y2 y3 y4, digit2 mo1 mo2, digit2 d1 d2,
          digit2 h1 h2, digit2 mi1 mi2, digit2 s1 s2 with
      | some y, some mo, some d, some h, some mi, some sec =>
          some (tmToSecs ⟨y, mo, d, h, mi, sec⟩)
      | _, _, _, _, _, _ => none
  | _ => none

/-! ## The envelope codec (`Protocol::serialize` / `Protocol::deserialize`) -/

/-- `j.get<int>()`: succeeds only on an integer value. -/
def getInt : Json → Option ℤ
  | .int n => some n
  | _ => none

/-- `j.get<std::string>()`: succeeds only on a string value. -/
def getStr : Json → Option String
  | .str s => some s
  | _ => none

/-- `Protocol::serialize` (protocol.cpp, lines 83–115) at the JSON-tree
level: always write `type` and `timestamp`; write `subject` when
non-empty, `payload` when non-null, `correlationId` and `deviceId` when
present. An explicit timestamp is truncated to whole seconds by
`to_time_t` and formatted without milliseconds; an absent one becomes
`getTimestamp()` at the serialization instant `nowMs`. -/
def serialize (m : Message) (nowMs : ℕ) : Json :=
  .obj ([("type", Json.int m.type)]
    ++ (if m.subject = "" then [] else [("subject", Json.str m.subject)])
    ++ (if m.payload.isNull then [] else [("payload", m.payload)])
    ++ (match m.correlationId with
        | some c => [("correlationId", Json.str c)]
        | none => [])
    ++ [("timestamp", Json.str (match m.timestamp with
        | some t => formatTimestampSec (t / 1000)
        | none => getTimestampStr nowMs))]
    ++ (match m.deviceId with
        | some d => [("deviceId", Json.str d)]
        | none => []))

/-- `Protocol::deserialize` (protocol.cpp, lines 117–155) at the
JSON-tree level: each recognized field is copied when present, a
wrongly-typed recognized field throws (MalformedJson), unrecognized
fields are ignored, and the `type` integer is installed by
`static_cast<MessageType>` with no range check. A present but unparsable
timestamp string is skipped silently (`if (result.ok())`). -/
def deserialize (j : Json) : Except ErrorCode Message :=
  if j.containsKey "type" ∧ (getInt (j.getKey "type")).isNone then .error .MalformedJson
  else if j.containsKey "subject" ∧ (getStr (j.getKey "subject")).isNone then
    .error .MalformedJson
  else if j.containsKey "correlationId" ∧ (getStr (j.getKey "correlationId")).isNone then
    .error .MalformedJson
  else if j.containsKey "timestamp" ∧ (getStr (j.getKey "timestamp")).isNone then
    .error .MalformedJson
  else if j.containsKey "deviceId" ∧ (getStr (j.getKey "deviceId")).isNone then
    .error .MalformedJson
  else .ok
    { type := if j.containsKey "type" then (getInt (j.getKey "type")).getD 0 else 0
      subject := if j.containsKey "subject" then (getStr (j.getKey "subject")).getD "" else ""
      payload := if j.containsKey "payload" then j.getKey "payload" else .null
      correlationId :=
        if j.containsKey "correlationId" then getStr (j.getKey "correlationId") else none
      timestamp :=
        if j.containsKey "timestamp" then
          (parseTimestamp ((getStr (j.getKey "timestamp")).getD "")).map (1000 * ·)
        else none
      deviceId := if j.containsKey "deviceId" then getStr (j.getKey "deviceId") else none }

/-! # Theorems -/

/-- On identical token lists the specification lockstep walk succeeds. -/
theorem specLockstep_refl (ts : List String) : specLockstep ts ts = true := by
  induction ts with
  | nil => rfl
  | cons t ts ih =>
      by_cases hgt : t = ">"
      · subst hgt
        cases ts with
        | nil => rfl
        | cons u us => rfl
      · by_cases hst : t = "*"
        · subst hst
          cases ts with
          | nil => rfl
          | cons u us => simpa [specLockstep] using ih
        · cases ts with
          | nil => simp [specLockstep, hgt, hst]
          | cons u us => simp [specLockstep, hgt, hst]; exact ih

/-- The source loop and the specification lockstep walk agree on all token
lists. -/
theorem matchLoop_eq_specLockstep (ps ss : List String) :
    matchLoop ps ss = specLockstep ps ss := by
  induction ps generalizing ss with
  | nil => cases ss <;> rfl
  | cons p ps ih =>
      cases ss with
      | nil =>
          by_cases hgt : p = ">" <;> by_cases hst : p = "*" <;>
            simp_all [matchLoop, specLockstep]
      | cons s ss =>
          by_cases hgt : p = ">"
          · subst hgt; rfl
          · by_cases hst : p = "*"
            · subst hst; simp [matchLoop, specLockstep, ih]
            · by_cases heq : p = s
              · subst heq; simp [matchLoop, specLockstep, hgt, hst, ih]
              · simp [matchLoop, specLockstep, hgt, hst, heq]

/-- Auxiliary: a subscription id that does not occur in a list of
subscriptions is never invoked by dispatch over that list. -/
theorem count_dispatchInvocations_eq_zero (subs : List Subscription) (subject : String)
    (n : Nat) (h : n ∉ subs.map (·.id)) :
    (dispatchInvocations subs subject).count n = 0 := by
  refine List.count_eq_zero_of_not_mem (fun hmem => h ?_)
  have hsub : (subs.filter
      (fun sub => sub.active && matchesSubject sub.subject subject)).Sublist subs :=
    List.filter_sublist subs
  have hmap := hsub.map (fun sub => sub.id)
  exact hmap.mem hmem

/-- Dispatch invokes each subscription's handler exactly once when its
pattern passes the simplified matcher and it is active, and never
otherwise, provided subscription ids are pairwise distinct (which the
monotonic id allocator guarantees). -/
theorem dispatch_count (subs : List Subscription) (subject : String)
    (hnodup : (subs.map (·.id)).Nodup) (sub : Subscription) (hmem : sub ∈ subs) :
    (dispatchInvocations subs subject).count sub.id =
      if sub.active && matchesSubject sub.subject subject then 1 else 0 := by
  induction subs with
  | nil => cases hmem
  | cons head tail ih =>
      have hnodup' : (tail.map (·.id)).Nodup := (List.nodup_cons.mp hnodup).2
      have hhead : head.id ∉ tail.map (·.id) := (List.nodup_cons.mp hnodup).1
      rcases List.mem_cons.mp hmem with heq | htail
      · subst heq
        by_cases hp : sub.active && matchesSubject sub.subject subject
        · simp only [dispatchInvocations, List.filter_cons, hp, if_pos, List.map_cons]
          rw [List.count_cons_self]
          have := count_dispatchInvocations_eq_zero tail subject sub.id hhead
          simp only [dispatchInvocations] at this
          simp [this, hp]
        · simp only [dispatchInvocations, List.filter_cons, hp]
          have := count_dispatchInvocations_eq_zero tail subject sub.id hhead
          simp only [dispatchInvocations] at this
          simp [this, hp]
      · have hid : head.id ≠ sub.id := by
          intro hcontra
          exact hhead (hcontra ▸ List.mem_map_of_mem (·.id) htail)
        have := ih hnodup' htail
        by_cases hp : head.active && matchesSubject head.subject subject
        · simp only [dispatchInvocations, List.filter_cons, hp, if_pos, List.map_cons]
          rw [List.count_cons_of_ne (fun h => hid h.symm)]
          simpa [dispatchInvocations] using this
        · simp only [dispatchInvocations, List.filter_cons, hp]
          simpa [dispatchInvocations] using this

/-- C2: `AuthManager::matchesPattern(P, S)` returns true exactly when the
lockstep walk of the specification succeeds on the two token lists —
literal tokens byte-equal, `*` consumes exactly one subject token, `>` at
position i succeeds iff the subject has at least i+1 tokens, otherwise both
lists must be exhausted simultaneously — and in particular
matches("a.b.c","a.b.c"), matches("a.*.c","a.b.c"), matches("a.>","a.b.c.d")
are true while matches("a.>","a") is false. -/
theorem claim_C2 :
    (∀ P S : String, matchesPattern P S = specLockstep (splitTokens P) (splitTokens S)) ∧
    matchesPattern "a.b.c" "a.b.c" = true ∧
    matchesPattern "a.*.c" "a.b.c" = true ∧
    matchesPattern "a.>" "a.b.c.d" = true ∧
    matchesPattern "a.>" "a" = false := by
  refine ⟨fun P S => ?_, by decide, by decide, by decide, by decide⟩
  unfold matchesPattern
  by_cases h : P = S
  · subst h
    simp [specLockstep_refl]
  · simp only [h, if_false]
    exact matchLoop_eq_specLockstep _ _

/-- C1 counterexample: with the claim's own subscriptions
"factory.line1.>" (id 1) and "factory.*.temp" (id 2), a Message on subject
"x" is matched by neither pattern under the section-4.1 lockstep matcher,
yet the engine's dispatch still invokes the handler of subscription 2,
because `GatewayClient::Impl::matchesSubject` treats every pattern
containing '*' as matching any subject. -/
theorem claim_C1_counterexample :
    specLockstep (splitTokens "factory.line1.>") (splitTokens "x") = false ∧
    specLockstep (splitTokens "factory.*.temp") (splitTokens "x") = false ∧
    dispatchInvocations
      [⟨1, "factory.line1.>", true⟩, ⟨2, "factory.*.temp", true⟩] "x" = [2] := by
  refine ⟨by decide, by decide, by decide⟩

/-- C1 (amended): for an inbound Message, `handleSubscriptionMessage`
invokes exactly the handlers of active subscriptions whose pattern matches
the subject under the simplified dispatch matcher `matchesSubject` (exact
string equality; for a pattern ending in '>', a string-prefix test against
the pattern minus its '>'; any pattern containing '*' matches every
subject), each such handler exactly once, given that subscription ids are
pairwise distinct; with subscriptions "factory.line1.>" and
"factory.*.temp", a Message on "factory.line1.temp" invokes both handlers
exactly once, in id order. -/
theorem claim_C1 :
    (∀ (subs : List Subscription) (subject : String) (sub : Subscription),
        (subs.map (fun s => s.id)).Nodup → sub ∈ subs →
        (dispatchInvocations subs subject).count sub.id =
          if sub.active && matchesSubject sub.subject subject then 1 else 0) ∧
    dispatchInvocations
      [⟨1, "factory.line1.>", true⟩, ⟨2, "factory.*.temp", true⟩]
      "factory.line1.temp" = [1, 2] :=
  ⟨fun subs subject sub h1 h2 => dispatch_count subs subject h1 sub h2, by decide⟩

/-- Witness for C1: the general dispatch-count statement applied to the
factory example — subscription 1 is active and matching, so its handler is
invoked exactly once. -/
theorem claim_C1_witness :
    (([⟨1, "factory.line1.>", true⟩, ⟨2, "factory.*.temp", true⟩] :
        List Subscription).map (fun s => s.id)).Nodup ∧
    (dispatchInvocations [⟨1, "factory.line1.>", true⟩, ⟨2, "factory.*.temp", true⟩]
        "factory.line1.temp").count 1 = 1 :=
  ⟨by decide, by
    have h := claim_C1.1 [⟨1, "factory.line1.>", true⟩, ⟨2, "factory.*.temp", true⟩]
      "factory.line1.temp" ⟨1, "factory.line1.>", true⟩ (by decide) (by decide)
    simpa using h⟩

/-- `resubscribeAll` never changes the engine state. -/
theorem resubscribeAll_fst (s : EngineState) : (resubscribeAll s).1 = s := by
  unfold resubscribeAll
  split <;> rfl

/-- `setState` changes exactly the connection state. -/
theorem setState_fst (s : EngineState) (n : ConnectionState) :
    (setState s n).1 = { s with conn := n } := by
  unfold setState
  by_cases h : s.conn = n
  · simp [h]
  · by_cases h2 : n = .Connected
    · subst h2
      simp [h, resubscribeAll_fst]
    · simp [h, h2]

/-- C3 counterexample: on a freshly constructed (Disconnected) client,
`subscribe` with the valid pattern "a.b" returns the NotConnected error,
records nothing and sends nothing — the transmission is not deferred. -/
theorem claim_C3_counterexample :
    initialEngine.conn ≠ .Connected ∧
    isValidSubject "a.b" = true ∧
    subscribeCall initialEngine "a.b" true =
      (.error .NotConnected, initialEngine, []) := by
  refine ⟨by decide, by decide, rfl⟩

/-- C3 (amended): `subscribe` in any state other than Connected fails with
ErrorCode::NotConnected, recording no subscription and sending nothing —
it does not defer the Subscribe envelope. Only in the Connected state,
with a valid pattern and a successful transport send, is a new id
allocated, the entry inserted, and the Subscribe envelope sent
immediately. -/
theorem claim_C3 :
    (∀ (s : EngineState) (subject : String) (sendOk : Bool),
        s.conn ≠ .Connected →
        subscribeCall s subject sendOk = (.error .NotConnected, s, [])) ∧
    (∀ (s : EngineState) (subject : String),
        s.conn = .Connected → isValidSubject subject = true →
        subscribeCall s subject true =
          (.ok s.nextSubscriptionId,
           { s with nextSubscriptionId := s.nextSubscriptionId + 1
                    subs := s.subs ++ [⟨s.nextSubscriptionId, subject, true⟩] },
           [Action.sendFrame (.subscribeMsg subject)])) := by
  constructor
  · intro s subject sendOk h
    simp [subscribeCall, h]
  · intro s subject h hv
    simp [subscribeCall, h, hv]

/-- Witness for C3: the NotConnected branch applied to the fresh client. -/
theorem claim_C3_witness :
    initialEngine.conn ≠ .Connected ∧
    subscribeCall initialEngine "x.y" false =
      (.error .NotConnected, initialEngine, []) :=
  ⟨by decide, claim_C3.1 initialEngine "x.y" false (by decide)⟩

/-- C4 counterexample: after connect, a successful handshake and then a
transport loss (reconnect policy enabled), the engine sits in Reconnecting
while the auth manager still holds the DeviceIdentity — the manager is
only reset by an explicit `disconnect()`, not on transport loss. -/
theorem claim_C4_counterexample :
    (runEvents initialEngine lossTrace).1.conn = .Reconnecting ∧
    (runEvents initialEngine lossTrace).1.auth.deviceInfo ≠ none := by
  refine ⟨by decide, by decide⟩

/-- C4 (amended): the auth manager is reset exactly by the explicit
`disconnect()` path — a transport loss (the `onDisconnected` transport
callback, whether it leads to Reconnecting or Disconnected) leaves the
auth manager, and hence any stored DeviceIdentity, untouched; after an
explicit `disconnect()` from any non-terminal state the manager holds no
DeviceIdentity. The claimed equivalence (identity held iff Connected)
therefore fails in the transport-loss direction. -/
theorem claim_C4 :
    (∀ (s : EngineState) (reason : String),
        (transportOnDisconnected s reason).1.auth = s.auth) ∧
    (∀ s : EngineState, s.conn ≠ .Disconnected → s.conn ≠ .Closed →
        (disconnectCall s).1.auth.deviceInfo = none) := by
  constructor
  · intro s reason
    unfold transportOnDisconnected
    split
    · rw [setState_fst]
    · rw [setState_fst]
  · intro s h1 h2
    unfold disconnectCall
    have hcond : ¬ (s.conn = .Disconnected ∨ s.conn = .Closed) := by
      intro h
      rcases h with h | h
      · exact h1 h
      · exact h2 h
    simp only [hcond, if_false]
    rw [setState_fst, setState_fst]
    rfl

/-- Witness for C4: explicit disconnect from Connected clears the stored
DeviceIdentity. -/
theorem claim_C4_witness :
    ({ initialEngine with conn := .Connected } : EngineState).conn ≠ .Disconnected ∧
    ({ initialEngine with conn := .Connected } : EngineState).conn ≠ .Closed ∧
    (disconnectCall { initialEngine with conn := .Connected }).1.auth.deviceInfo = none :=
  ⟨by decide, by decide,
    claim_C4.2 { initialEngine with conn := .Connected } (by decide) (by decide)⟩

/-- C7 counterexample: with `resubscribeOnReconnect` disabled in the
reconnect configuration, a successful authentication while Authenticating
enters Connected and fires `onConnected` without re-sending any Subscribe
frame, although an active subscription is present in the registry. -/
theorem claim_C7_counterexample :
    resubOffEngine.subs.filter (·.active) = [⟨1, "a.b", true⟩] ∧
    resubOffEngine.auth.state = .Authenticating ∧
    (handleAuthMessage resubOffEngine authOkMsg).1.conn = .Connected ∧
    (handleAuthMessage resubOffEngine authOkMsg).2 =
      [Action.cbStateChanged .Authenticating .Connected, Action.cbConnected] :=
  ⟨rfl, rfl, rfl, rfl⟩

/-- C7 (amended): when an Auth envelope with `payload.success == true` is
processed while the manager is Authenticating and the engine is in the
Authenticating state, and the policy's `resubscribeOnReconnect` flag is
enabled (its default), the engine emits exactly: the state change to
Connected, then one Subscribe frame per active subscription in registry
(map) order — ascending id, which is insertion order under the monotonic
allocator — and only then the user `onConnected` callback. -/
theorem claim_C7 :
    ∀ (s : EngineState) (msg : Message),
      s.conn = .Authenticating →
      s.auth.state = .Authenticating →
      msg.type = mtAuth →
      msg.payload.containsKey "success" = true →
      (msg.payload.getKey "success").asBool = true →
      s.policy.resubscribe = true →
      (handleAuthMessage s msg).2 =
        [Action.cbStateChanged .Authenticating .Connected] ++
        (s.subs.filter (·.active)).map
          (fun sub => Action.sendFrame (.subscribeMsg sub.subject)) ++
        [Action.cbConnected] := by
  intro s msg hconn hauth htype hck hsucc hresub
  have hsuccess : (processAuthResponse msg).success = true := by
    simp [processAuthResponse, htype, hck, hsucc]
  simp [handleAuthMessage, authHandleMessage, hauth, htype, hsuccess,
    authIsAuthenticated, setState, hconn, resubscribeAll, policyReset, hresub]

/-- Witness for C7: scenario 4 of the specification — subscriptions "a.b"
then "a.c"; after a successful reauth both Subscribe frames are sent in
that order, before `onConnected`. -/
theorem claim_C7_witness :
    resubOnEngine.conn = .Authenticating ∧
    resubOnEngine.policy.resubscribe = true ∧
    (handleAuthMessage resubOnEngine authOkMsg).2 =
      [Action.cbStateChanged .Authenticating .Connected,
       Action.sendFrame (.subscribeMsg "a.b"),
       Action.sendFrame (.subscribeMsg "a.c"),
       Action.cbConnected] :=
  ⟨rfl, rfl, by
    have h := claim_C7 resubOnEngine authOkMsg rfl rfl rfl rfl rfl rfl
    simpa using h⟩

/-- C8 counterexample: heartbeat interval 1000 ms, timeout 100 ms; the
last ping was sent at 0 ms and the last pong received at 50 ms, so no ping
has been sent since the last pong; at the poll tick at 500 ms no ping is
sent (interval not yet elapsed), and still `missedPongs` is incremented —
the code never checks whether a ping is outstanding. -/
theorem claim_C8_counterexample :
    hbEngine.lastPingSent < hbEngine.lastPongReceived ∧
    (processHeartbeat hbEngine 500).2.filter (·.isSendFrame) = [] ∧
    (processHeartbeat hbEngine 500).1.lastPingSent = hbEngine.lastPingSent ∧
    hbEngine.missedPongs = 0 ∧
    (processHeartbeat hbEngine 500).1.missedPongs = 1 :=
  ⟨by decide, rfl, rfl, rfl, rfl⟩

/-- C8 (amended): a poll tick increments `missedPongs` exactly when a pong
has been received at least once and (now − lastPongReceived) > timeout —
whether or not a ping has been sent since the last pong — and the
transport disconnect with reason "Heartbeat timeout" is requested exactly
when additionally the incremented count reaches
`missedPongsBeforeDisconnect`; hence the first disconnect request occurs
at count N, not N−1 nor N+1. -/
theorem claim_C8 :
    ∀ (s : EngineState) (now : Nat),
      ((processHeartbeat s now).1.missedPongs =
        if s.lastPongReceived ≠ 0 ∧ s.hb.timeout < now - s.lastPongReceived
        then s.missedPongs + 1 else s.missedPongs) ∧
      (Action.transportDisconnect "Heartbeat timeout" ∈ (processHeartbeat s now).2 ↔
        s.lastPongReceived ≠ 0 ∧ s.hb.timeout < now - s.lastPongReceived ∧
          s.hb.missedPongsBeforeDisconnect ≤ s.missedPongs + 1) := by
  intro s now
  by_cases hp : s.hb.interval ≤ now - s.lastPingSent <;>
    by_cases h1 : s.lastPongReceived ≠ 0 <;>
    by_cases h2 : s.hb.timeout < now - s.lastPongReceived <;>
    by_cases h3 : s.hb.missedPongsBeforeDisconnect ≤ s.missedPongs + 1 <;>
    simp [processHeartbeat, hp, h1, h2, h3]

/-- A disabled policy never allows reconnection. -/
theorem shouldReconnect_disabled (p : PolicyState) (h : p.enabled = false) :
    shouldReconnect p = false := by
  simp [shouldReconnect, h]

/-- `setState` never fires `onReconnecting`. -/
theorem setState_no_reconnecting (s : EngineState) (n : ConnectionState) (k : Nat) :
    Action.cbReconnecting k ∉ (setState s n).2 := by
  unfold setState resubscribeAll
  by_cases h : s.conn = n
  · simp [h]
  · by_cases h2 : n = .Connected
    · subst h2
      by_cases h3 : s.policy.resubscribe = false <;> simp [h, h3]
    · simp [h, h2]

/-- `processHeartbeat` never touches the reconnect policy. -/
theorem processHeartbeat_policy (s : EngineState) (now : Nat) :
    (processHeartbeat s now).1.policy = s.policy := by
  by_cases hp : s.hb.interval ≤ now - s.lastPingSent <;>
    by_cases h1 : s.lastPongReceived ≠ 0 <;>
    by_cases h2 : s.hb.timeout < now - s.lastPongReceived <;>
    by_cases h3 : s.hb.missedPongsBeforeDisconnect ≤ s.missedPongs + 1 <;>
    simp [processHeartbeat, hp, h1, h2, h3]

/-- With a disabled policy, `processReconnection` just transitions to
Disconnected. -/
theorem processReconnection_disabled (s : EngineState)
    (h : s.policy.enabled = false) :
    processReconnection s = setState s .Disconnected := by
  simp [processReconnection, shouldReconnect_disabled _ h]

/-- `handleAuthMessage` never fires `onReconnecting`. -/
theorem handleAuthMessage_no_reconnecting (s : EngineState) (msg : Message) (k : Nat) :
    Action.cbReconnecting k ∉ (handleAuthMessage s msg).2 := by
  intro hmem
  unfold handleAuthMessage at hmem
  by_cases h1 : (authHandleMessage s.auth msg).1 = true
  · by_cases h2 : authIsAuthenticated (authHandleMessage s.auth msg).2 = true
    · simp only [h1, h2, if_true] at hmem
      rcases List.mem_append.mp hmem with hmem | hmem
      · exact setState_no_reconnecting _ _ _ hmem
      · simp at hmem
    · simp only [h1, h2, if_true, if_false, Bool.false_eq_true] at hmem
      exact setState_no_reconnecting _ _ _ hmem
  · simp only [h1, Bool.false_eq_true, if_false] at hmem
    simp at hmem

/-- `processHeartbeat` never fires `onReconnecting`. -/
theorem processHeartbeat_no_reconnecting (s : EngineState) (now : Nat) (k : Nat) :
    Action.cbReconnecting k ∉ (processHeartbeat s now).2 := by
  by_cases hp : s.hb.interval ≤ now - s.lastPingSent <;>
    by_cases h1 : s.lastPongReceived ≠ 0 <;>
    by_cases h2 : s.hb.timeout < now - s.lastPongReceived <;>
    by_cases h3 : s.hb.missedPongsBeforeDisconnect ≤ s.missedPongs + 1 <;>
    simp [processHeartbeat, hp, h1, h2, h3]

/-- A step of a client whose reconnect policy was disabled keeps it
disabled: no event handler ever re-enables the policy. -/
theorem step_keeps_disabled (s : EngineState) (e : Event)
    (h : s.policy.enabled = false) : (step s e).1.policy.enabled = false := by
  cases e with
  | userConnect =>
      simp only [step, connectCall]
      by_cases hc : s.conn = .Connected ∨ s.conn = .Connecting ∨ s.conn = .Authenticating
      · simp [hc, h]
      · simp [hc, setState_fst, h]
  | beginAuth =>
      simp only [step, beginAuthentication]
      simp [setState_fst, h]
  | transportConnected =>
      simp only [step, transportOnConnected]
      simp [setState_fst, h]
  | transportClosed reason =>
      simp only [step, transportOnDisconnected]
      by_cases hc : s.policy.enabled = true ∧ shouldReconnect s.policy = true
      · rw [h] at hc
        simp at hc
      · simp [hc, setState_fst, h]
  | inbound msg now =>
      simp only [step, handleMessage]
      split_ifs
      · simp only [handleAuthMessage]
        by_cases h1 : (authHandleMessage s.auth msg).1 = true
        · by_cases h2 : authIsAuthenticated (authHandleMessage s.auth msg).2 = true
          · simp [h1, h2, setState_fst, policyReset, h]
          · simp [h1, h2, setState_fst, h]
        · simp [h1, h]
      · simp [handleSubscriptionMessage, h]
      · exact h
      · simp [handleErrorMessage, h]
      · simp [handlePongMessage, h]
      · exact h
  | userDisconnect =>
      simp only [step, disconnectCall]
      by_cases hc : s.conn = .Disconnected ∨ s.conn = .Closed
      · simp [hc, h]
      · simp [hc, setState_fst]
  | userSubscribe subject sendOk =>
      simp only [step, subscribeCall]
      split_ifs <;> simp [h]
  | poll now =>
      simp only [step, pollStep]
      by_cases hc : s.conn = .Connected ∧ s.hb.enabled = true
      · rw [if_pos hc]
        have h1 : (processHeartbeat s now).1.policy.enabled = false := by
          rw [processHeartbeat_policy]; exact h
        by_cases h2 : (processHeartbeat s now).1.conn = .Reconnecting
        · rw [if_pos h2, processReconnection_disabled _ h1, setState_fst]
          exact h1
        · rw [if_neg h2]
          exact h1
      · rw [if_neg hc]
        by_cases h2 : s.conn = .Reconnecting
        · rw [if_pos h2, processReconnection_disabled _ h, setState_fst]
          exact h
        · rw [if_neg h2]
          exact h

/-- A step of a client whose reconnect policy is disabled never fires
`onReconnecting`. -/
theorem step_no_reconnecting (s : EngineState) (e : Event) (k : Nat)
    (h : s.policy.enabled = false) : Action.cbReconnecting k ∉ (step s e).2 := by
  cases e with
  | userConnect =>
      intro hmem
      simp only [step, connectCall] at hmem
      by_cases hc : s.conn = .Connected ∨ s.conn = .Connecting ∨ s.conn = .Authenticating
      · simp [hc] at hmem
      · simp only [hc, if_false] at hmem
        rcases List.mem_append.mp hmem with hmem | hmem
        · exact setState_no_reconnecting _ _ _ hmem
        · simp at hmem
  | beginAuth =>
      intro hmem
      simp only [step, beginAuthentication] at hmem
      rcases List.mem_append.mp hmem with hmem | hmem
      · exact setState_no_reconnecting _ _ _ hmem
      · simp at hmem
  | transportConnected =>
      intro hmem
      simp only [step, transportOnConnected] at hmem
      exact setState_no_reconnecting _ _ _ hmem
  | transportClosed reason =>
      intro hmem
      simp only [step, transportOnDisconnected] at hmem
      by_cases hc : s.policy.enabled = true ∧ shouldReconnect s.policy = true
      · rw [h] at hc
        simp at hc
      · simp only [hc, if_false] at hmem
        rcases List.mem_append.mp hmem with hmem | hmem
        · exact setState_no_reconnecting _ _ _ hmem
        · simp at hmem
  | inbound msg now =>
      intro hmem
      simp only [step, handleMessage] at hmem
      split_ifs at hmem
      · exact handleAuthMessage_no_reconnecting _ _ _ hmem
      · simp [handleSubscriptionMessage, List.mem_map] at hmem
      · simp at hmem
      · simp [handleErrorMessage] at hmem
      · simp [handlePongMessage] at hmem
      · simp at hmem
  | userDisconnect =>
      intro hmem
      simp only [step, disconnectCall] at hmem
      by_cases hc : s.conn = .Disconnected ∨ s.conn = .Closed
      · simp [hc] at hmem
      · simp only [hc, if_false] at hmem
        rcases List.mem_append.mp hmem with hmem | hmem
        · rcases List.mem_append.mp hmem with hmem | hmem
          · exact setState_no_reconnecting _ _ _ hmem
          · simp at hmem
        · exact setState_no_reconnecting _ _ _ hmem
  | userSubscribe subject sendOk =>
      intro hmem
      simp only [step, subscribeCall] at hmem
      split_ifs at hmem <;> simp at hmem
  | poll now =>
      intro hmem
      simp only [step, pollStep] at hmem
      rcases List.mem_append.mp hmem with hmem | hmem
      · by_cases hc : s.conn = .Connected ∧ s.hb.enabled = true
        · rw [if_pos hc] at hmem
          exact processHeartbeat_no_reconnecting _ _ _ hmem
        · rw [if_neg hc] at hmem
          simp at hmem
      · by_cases hc : s.conn = .Connected ∧ s.hb.enabled = true
        · rw [if_pos hc] at hmem
          have h1 : (processHeartbeat s now).1.policy.enabled = false := by
            rw [processHeartbeat_policy]; exact h
          by_cases h2 : (processHeartbeat s now).1.conn = .Reconnecting
          · rw [if_pos h2, processReconnection_disabled _ h1] at hmem
            exact setState_no_reconnecting _ _ _ hmem
          · rw [if_neg h2] at hmem
            simp at hmem
        · rw [if_neg hc] at hmem
          by_cases h2 : s.conn = .Reconnecting
          · rw [if_pos h2, processReconnection_disabled _ h] at hmem
            exact setState_no_reconnecting _ _ _ hmem
          · rw [if_neg h2] at hmem
            simp at hmem

/-- C10: `disconnect()` on a client that is not already Disconnected or
Closed disables the reconnect policy; no engine event ever re-enables it;
while the policy is disabled no step can fire `onReconnecting`; and a
transport loss on a disabled client transitions directly to Disconnected,
firing `onDisconnected` — never to Reconnecting. -/
theorem claim_C10 :
    (∀ s : EngineState, s.conn ≠ .Disconnected → s.conn ≠ .Closed →
        (disconnectCall s).1.policy.enabled = false) ∧
    (∀ (s : EngineState) (e : Event), s.policy.enabled = false →
        (step s e).1.policy.enabled = false) ∧
    (∀ (s : EngineState) (e : Event) (k : Nat), s.policy.enabled = false →
        Action.cbReconnecting k ∉ (step s e).2) ∧
    (∀ (s : EngineState) (reason : String), s.policy.enabled = false →
        (step s (.transportClosed reason)).1.conn = .Disconnected ∧
        Action.cbDisconnected reason ∈ (step s (.transportClosed reason)).2) := by
  refine ⟨?_, ?_, ?_, ?_⟩
  · intro s h1 h2
    unfold disconnectCall
    have hcond : ¬ (s.conn = .Disconnected ∨ s.conn = .Closed) := by
      intro h
      rcases h with h | h
      · exact h1 h
      · exact h2 h
    simp [hcond, setState_fst]
  · exact step_keeps_disabled
  · intro s e k h
    exact step_no_reconnecting s e k h
  · intro s reason h
    have hc : ¬ (s.policy.enabled = true ∧ shouldReconnect s.policy = true) := by
      intro hcontra
      rw [h] at hcontra
      simp at hcontra
    constructor
    · simp only [step, transportOnDisconnected]
      rw [if_neg hc, setState_fst]
    · simp only [step, transportOnDisconnected]
      rw [if_neg hc]
      exact List.mem_append.mpr (Or.inr (by simp))

/-- `static_cast<long long>` of a whole number is that number. -/
theorem castTrunc_natCast (n : ℕ) : castTrunc ((n : ℚ)) = (n : ℤ) := by
  simp [castTrunc, Rat.num_natCast, Rat.den_natCast, Int.tdiv_one]

/-- With jitter disabled and another attempt allowed, `getNextDelay`
increments the attempt count and returns `initialDelay` uncapped on the
first attempt, and the truncated capped exponential backoff value on later
attempts. -/
theorem getNextDelay_noJitter (p : PolicyState) (hj : p.jitterEnabled = false)
    (hs : shouldReconnect p = true) :
    getNextDelay p 0 =
      ((if p.attemptCount = 0 then (p.initialDelay : ℤ)
        else castTrunc (min ((p.initialDelay : ℚ) * p.backoffMultiplier ^ p.attemptCount)
          ((p.maxDelay : ℚ)))),
       { p with attemptCount := p.attemptCount + 1 }) := by
  simp only [getNextDelay]
  rw [if_neg (by simp [hs])]
  simp only [hj, Bool.false_eq_true, if_false]
  by_cases hz : p.attemptCount = 0
  · simp [calculateDelay, hz]
  · have h1 : ¬ (p.attemptCount + 1 ≤ 1) := by omega
    simp [calculateDelay, h1, hz]

/-- Truncating the capped product of whole numbers is a whole-number
computation. -/
theorem castTrunc_min_pow (i m M k : ℕ) :
    castTrunc (min ((i : ℚ) * ((m : ℕ) : ℚ) ^ k) (((M : ℕ) : ℚ))) =
      ((min (i * m ^ k) M : ℕ) : ℤ) := by
  rw [show ((i : ℚ) * ((m : ℕ) : ℚ) ^ k) = ((i * m ^ k : ℕ) : ℚ) by push_cast; ring,
    ← Nat.cast_min, castTrunc_natCast]

/-- One scenario-3 backoff step beyond the first: the delay is the capped
doubling value. -/
theorem s3_delay (k d : ℕ) (hk : ¬ k = 0)
    (hs : shouldReconnect { scenario3Policy with attemptCount := k } = true)
    (hd : min (100 * 2 ^ k) 800 = d) :
    getNextDelay { scenario3Policy with attemptCount := k } 0 =
      ((d : ℤ), { scenario3Policy with attemptCount := k + 1 }) := by
  rw [getNextDelay_noJitter _ rfl hs]
  simp only [hk, if_false]
  rw [Prod.mk.injEq]
  refine ⟨?_, rfl⟩
  show castTrunc (min (((100 : ℕ) : ℚ) * (2 : ℚ) ^ k) (((800 : ℕ) : ℚ))) = (d : ℤ)
  rw [show ((2 : ℚ)) = (((2 : ℕ) : ℕ) : ℚ) by norm_num, castTrunc_min_pow, hd]

/-- A poll tick in the Reconnecting state (heartbeat inactive there) is
exactly reconnection processing. -/
theorem pollStep_reconnecting (s : EngineState) (now : Nat)
    (h : s.conn = .Reconnecting) : pollStep s now = processReconnection s := by
  unfold pollStep
  have hnc : ¬ (s.conn = .Connected ∧ s.hb.enabled = true) := by
    intro hc
    rw [h] at hc
    exact absurd hc.1 (by simp)
  rw [if_neg hnc]
  simp only []
  rw [if_pos h]
  simp

/-- One poll tick in the Reconnecting state under the scenario-3 policy,
while attempts remain: `onReconnecting` fires with the incremented count,
the engine sleeps for the computed delay and retries the transport. -/
theorem s3_poll (k : ℕ) (d : ℤ)
    (hs : shouldReconnect { scenario3Policy with attemptCount := k } = true)
    (hd : getNextDelay { scenario3Policy with attemptCount := k } 0 =
      (d, { scenario3Policy with attemptCount := k + 1 })) :
    step { s3Engine with policy := { scenario3Policy with attemptCount := k } } (.poll 0) =
      ({ s3Engine with policy := { scenario3Policy with attemptCount := k + 1 } },
       [.cbReconnecting (k + 1), .sleepFor d, .transportConnectAttempt]) := by
  simp only [step]
  rw [pollStep_reconnecting _ _ rfl]
  unfold processReconnection
  rw [if_neg (by rw [hs]; simp)]
  simp [hd, s3Engine]

/-- The sixth poll tick: attempts exhausted, the engine transitions to
Disconnected. -/
theorem s3_poll_exhausted :
    step { s3Engine with policy := { scenario3Policy with attemptCount := 5 } } (.poll 0) =
      (s3Final, [.cbStateChanged .Reconnecting .Disconnected]) := by
  simp only [step]
  rw [pollStep_reconnecting _ _ rfl]
  unfold processReconnection
  have hs : shouldReconnect { scenario3Policy with attemptCount := 5 } = false := by decide
  rw [if_pos (by rw [show ({ s3Engine with
    policy := { scenario3Policy with attemptCount := 5 } } : EngineState).policy =
      ({ scenario3Policy with attemptCount := 5 } : PolicyState) from rfl, hs])]
  simp [setState, resubscribeAll, s3Engine, s3Final]

/-- The scenario-3 reconnect burst, delay by delay. -/
theorem s3_trace :
    runEvents s3Engine (List.replicate 6 (.poll 0)) =
      (s3Final,
       [.cbReconnecting 1, .sleepFor 100, .transportConnectAttempt,
        .cbReconnecting 2, .sleepFor 200, .transportConnectAttempt,
        .cbReconnecting 3, .sleepFor 400, .transportConnectAttempt,
        .cbReconnecting 4, .sleepFor 800, .transportConnectAttempt,
        .cbReconnecting 5, .sleepFor 800, .transportConnectAttempt,
        .cbStateChanged .Reconnecting .Disconnected]) := by
  have hd0 : getNextDelay { scenario3Policy with attemptCount := 0 } 0 =
      ((100 : ℤ), { scenario3Policy with attemptCount := 1 }) := by
    rw [getNextDelay_noJitter _ rfl (by decide)]
    simp [scenario3Policy]
  have h0 := s3_poll 0 100 (by decide) hd0
  have h1 := s3_poll 1 200 (by decide) (s3_delay 1 200 (by decide) (by decide) (by decide))
  have h2 := s3_poll 2 400 (by decide) (s3_delay 2 400 (by decide) (by decide) (by decide))
  have h3 := s3_poll 3 800 (by decide) (s3_delay 3 800 (by decide) (by decide) (by decide))
  have h4 := s3_poll 4 800 (by decide) (s3_delay 4 800 (by decide) (by decide) (by decide))
  have hstart : ({ s3Engine with policy := { scenario3Policy with attemptCount := 0 } }
      : EngineState) = s3Engine := rfl
  rw [hstart] at h0
  simp [runEvents, List.replicate, h0, h1, h2, h3, h4, s3_poll_exhausted]

/-- C5 counterexample: with initialDelay 1000 ms and maxDelay 500 ms (no
jitter), the first call to `getNextDelay` returns 1000 — the initial delay
uncapped — while the claimed formula min(initialDelay × multiplier⁰,
maxDelay) evaluates to 500: `calculateDelay` skips the cap entirely when
the attempt count is ≤ 1. -/
theorem claim_C5_counterexample :
    (getNextDelay uncappedPolicy 0).1 = 1000 ∧
    castTrunc (min ((1000 : ℚ) * 2 ^ (0 : ℕ)) ((500 : ℚ))) = 500 := by
  constructor
  · rw [getNextDelay_noJitter uncappedPolicy rfl (by decide)]
    simp [uncappedPolicy]
  · rw [show ((1000 : ℚ) * 2 ^ (0 : ℕ)) = ((1000 : ℕ) : ℚ) by norm_num,
      show ((500 : ℚ)) = ((500 : ℕ) : ℚ) by norm_num, ← Nat.cast_min, castTrunc_natCast]
    norm_num

/-- C5 (amended): while attempts remain, the n-th call to `nextDelay()`
increments the attempt count to n; with jitter disabled it returns
`initialDelay` (uncapped) at n = 1 and ⌊min(initialDelay ×
multiplier^(n−1), maxDelay)⌋ at n ≥ 2; once the limit is reached it
signals "do not reconnect" (delay 0, no increment). Concretely, under
initialDelay=100, multiplier=2, maxDelay=800, maxAttempts=5, no jitter,
the burst produces exactly the delays {100, 200, 400, 800, 800} with
exactly 5 `onReconnecting` callbacks, after which the engine transitions
to Disconnected. -/
theorem claim_C5 :
    (∀ p : PolicyState, shouldReconnect p = false → getNextDelay p 0 = (0, p)) ∧
    (∀ p : PolicyState, p.jitterEnabled = false → shouldReconnect p = true →
        getNextDelay p 0 =
          ((if p.attemptCount = 0 then (p.initialDelay : ℤ)
            else castTrunc (min ((p.initialDelay : ℚ) *
              p.backoffMultiplier ^ p.attemptCount) ((p.maxDelay : ℚ)))),
           { p with attemptCount := p.attemptCount + 1 })) ∧
    (runEvents s3Engine (List.replicate 6 (.poll 0))).1.conn = .Disconnected ∧
    (runEvents s3Engine (List.replicate 6 (.poll 0))).2 =
      [.cbReconnecting 1, .sleepFor 100, .transportConnectAttempt,
       .cbReconnecting 2, .sleepFor 200, .transportConnectAttempt,
       .cbReconnecting 3, .sleepFor 400, .transportConnectAttempt,
       .cbReconnecting 4, .sleepFor 800, .transportConnectAttempt,
       .cbReconnecting 5, .sleepFor 800, .transportConnectAttempt,
       .cbStateChanged .Reconnecting .Disconnected] ∧
    ((runEvents s3Engine (List.replicate 6 (.poll 0))).2.filter
      (·.isCbReconnecting)).length = 5 := by
  refine ⟨fun p h => by simp [getNextDelay, h], getNextDelay_noJitter, ?_, ?_, ?_⟩
  · rw [s3_trace]
    rfl
  · rw [s3_trace]
  · rw [s3_trace]
    rfl


/-- Digit characters round-trip through `digitVal`. -/
theorem digitVal_digitChar (k : ℕ) (h : k < 10) :
    digitVal (digitChar k) = some k := by
  interval_cases k <;> decide

/-- `pad2` output parses back to its value. -/
theorem digit2_pad2 (n : ℕ) (h : n < 100) :
    digit2 (digitChar (n / 10)) (digitChar (n % 10)) = some n := by
  rw [digit2, digitVal_digitChar (n / 10) (by omega), digitVal_digitChar (n % 10) (by omega)]
  simp only []
  congr 1
  omega

/-- `pad4` output parses back to its value. -/
theorem digit4_pad4 (n : ℕ) (h : n < 10000) :
    digit4 (digitChar (n / 1000)) (digitChar (n / 100 % 10))
      (digitChar (n / 10 % 10)) (digitChar (n % 10)) = some n := by
  have h1 : digit2 (digitChar (n / 1000)) (digitChar (n / 100 % 10)) = some (n / 100) := by
    have : n / 1000 = n / 100 / 10 := by omega
    rw [this, show n / 100 % 10 = n / 100 % 10 from rfl]
    exact digit2_pad2 (n / 100) (by omega)
  have h2 : digit2 (digitChar (n / 10 % 10)) (digitChar (n % 10)) = some (n % 100) := by
    have ha : n / 10 % 10 = n % 100 / 10 := by omega
    have hb : n % 10 = n % 100 % 10 := by omega
    rw [ha, hb]
    exact digit2_pad2 (n % 100) (by omega)
  rw [digit4, h1, h2]
  simp only []
  congr 1
  omega

/-- Rendered broken-down times parse back to their `timegm` value,
whatever follows the seconds field. -/
theorem parseTimestamp_render (tm : Tm) (rest : List Char)
    (hy : tm.year < 10000) (hmo : tm.month < 100) (hd : tm.day < 100)
    (hh : tm.hour < 100) (hmi : tm.minute < 100) (hs : tm.second < 100) :
    parseTimestamp (String.mk (renderTm tm ++ rest)) = some (tmToSecs tm) := by
  simp only [renderTm, pad4, pad2, List.cons_append, List.nil_append]
  simp only [parseTimestamp, String.toList]
  rw [digit4_pad4 tm.year hy, digit2_pad2 tm.month hmo, digit2_pad2 tm.day hd,
    digit2_pad2 tm.hour hh, digit2_pad2 tm.minute hmi, digit2_pad2 tm.second hs]

/-- Every year has at least one day. -/
theorem daysInYear_pos (y : ℕ) : 0 < daysInYear y := by
  unfold daysInYear
  split <;> omega

/-- Peeling one year off the epoch-relative day count. -/
theorem daysBeforeYear_succ (y : ℕ) (h : 1970 ≤ y) :
    daysBeforeYear (y + 1) = daysBeforeYear y + daysInYear y := by
  show (if y + 1 ≤ 1970 then 0 else daysBeforeYear y + daysInYear y) = _
  rw [if_neg (by omega)]

/-- The year loop of `gmtime` is inverted by the year sum of `timegm`:
its result carries the consumed days, leaves fewer days than the found
year holds, and never moves backwards. -/
theorem findYear_correct : ∀ (fuel y rem : ℕ), 1970 ≤ y → rem < fuel →
    daysBeforeYear (findYear fuel y rem).1 + (findYear fuel y rem).2 =
      daysBeforeYear y + rem ∧
    (findYear fuel y rem).2 < daysInYear (findYear fuel y rem).1 ∧
    1970 ≤ (findYear fuel y rem).1 := by
  intro fuel
  induction fuel with
  | zero => intro y rem _ hr; omega
  | succ fuel ih =>
      intro y rem hy hr
      by_cases hlt : rem < daysInYear y
      · simp [findYear, hlt, hy]
      · have hd := daysInYear_pos y
        have hrec := ih (y + 1) (rem - daysInYear y) (by omega) (by omega)
        simp only [findYear, hlt, if_false]
        rw [daysBeforeYear_succ y hy] at hrec
        exact ⟨by omega, hrec.2.1, hrec.2.2⟩

/-- The month loop of `gmtime` is inverted by the prefix sum of the month
table: the consumed lengths plus the remainder reconstruct the input, the
remainder stays below every month length bound, and the month index stays
within the table. -/
theorem findMonth_correct : ∀ (L : List ℕ) (m rem : ℕ), rem < L.sum →
    (∀ x ∈ L, x ≤ 31) →
    (L.take ((findMonth L m rem).1 - m)).sum + (findMonth L m rem).2 = rem ∧
    (findMonth L m rem).2 < 31 ∧
    m ≤ (findMonth L m rem).1 ∧
    (findMonth L m rem).1 ≤ m + L.length := by
  intro L
  induction L with
  | nil => intro m rem h _; simp at h
  | cons len rest ih =>
      intro m rem h hb
      have hlen : len ≤ 31 := hb len (List.mem_cons_self len rest)
      by_cases hlt : rem < len
      · simp only [findMonth, hlt, if_pos]
        refine ⟨by simp, by omega, by omega, by simp⟩
      · have hsum : rem - len < rest.sum := by
          simp only [List.sum_cons] at h
          omega
        have hrec := ih (m + 1) (rem - len) hsum (fun x hx => hb x (List.mem_cons_of_mem _ hx))
        simp only [findMonth, hlt, if_false]
        have hge : m + 1 ≤ (findMonth rest (m + 1) (rem - len)).1 := hrec.2.2.1
        have hk : (findMonth rest (m + 1) (rem - len)).1 - m =
            ((findMonth rest (m + 1) (rem - len)).1 - (m + 1)) + 1 := by omega
        rw [hk, List.take_succ_cons, List.sum_cons]
        refine ⟨by omega, hrec.2.1, by omega, ?_⟩
        simp only [List.length_cons]
        have := hrec.2.2.2
        omega

/-- The month table of a year sums to that year's day count. -/
theorem monthLengths_sum_eq (y : ℕ) : (monthLengths (isLeap y)).sum = daysInYear y := by
  unfold daysInYear
  cases h : isLeap y
  · rw [if_neg (by simp [h])]
    decide
  · rw [if_pos (by simp [h])]
    decide

/-- No month exceeds 31 days. -/
theorem monthLengths_le (leap : Bool) : ∀ x ∈ monthLengths leap, x ≤ 31 := by
  cases leap <;> decide

/-- `timegm` inverts `gmtime`: the calendar round trip on seconds. -/
theorem tmToSecs_secsToTm (secs : ℕ) : tmToSecs (secsToTm secs) = secs := by
  unfold secsToTm tmToSecs
  simp only []
  obtain ⟨hy1, hy2, _⟩ :=
    findYear_correct (secs / 86400 + 1) 1970 (secs / 86400) (by omega) (by omega)
  have hsum : (findYear (secs / 86400 + 1) 1970 (secs / 86400)).2 <
      (monthLengths (isLeap (findYear (secs / 86400 + 1) 1970 (secs / 86400)).1)).sum := by
    rw [monthLengths_sum_eq]
    exact hy2
  obtain ⟨hm1, _, _, _⟩ :=
    findMonth_correct (monthLengths (isLeap (findYear (secs / 86400 + 1) 1970 (secs / 86400)).1))
      1 (findYear (secs / 86400 + 1) 1970 (secs / 86400)).2 hsum (monthLengths_le _)
  unfold daysBeforeMonth
  have h1970 : daysBeforeYear 1970 = 0 := rfl
  omega

/-- The broken-down fields of `gmtime` fit the two-digit print widths. -/
theorem secsToTm_bounds (secs : ℕ) :
    (secsToTm secs).month < 100 ∧ (secsToTm secs).day < 100 ∧
    (secsToTm secs).hour < 100 ∧ (secsToTm secs).minute < 100 ∧
    (secsToTm secs).second < 100 := by
  unfold secsToTm
  simp only []
  obtain ⟨_, hy2, _⟩ :=
    findYear_correct (secs / 86400 + 1) 1970 (secs / 86400) (by omega) (by omega)
  have hsum : (findYear (secs / 86400 + 1) 1970 (secs / 86400)).2 <
      (monthLengths (isLeap (findYear (secs / 86400 + 1) 1970 (secs / 86400)).1)).sum := by
    rw [monthLengths_sum_eq]
    exact hy2
  obtain ⟨_, hm2, hm3, hm4⟩ :=
    findMonth_correct (monthLengths (isLeap (findYear (secs / 86400 + 1) 1970 (secs / 86400)).1))
      1 (findYear (secs / 86400 + 1) 1970 (secs / 86400)).2 hsum (monthLengths_le _)
  have hlen : (monthLengths (isLeap (findYear (secs / 86400 + 1) 1970
      (secs / 86400)).1)).length = 12 := by
    cases isLeap (findYear (secs / 86400 + 1) 1970 (secs / 86400)).1 <;> rfl
  refine ⟨by omega, by omega, by omega, by omega, by omega⟩

/-- The wire string of an explicit timestamp parses back to its
whole-second value (representable years). -/
theorem parseTimestamp_format (secs : ℕ) (hy : (secsToTm secs).year < 10000) :
    parseTimestamp (formatTimestampSec secs) = some secs := by
  obtain ⟨h1, h2, h3, h4, h5⟩ := secsToTm_bounds secs
  unfold formatTimestampSec
  rw [parseTimestamp_render _ _ hy h1 h2 h3 h4 h5, tmToSecs_secsToTm]

/-- The `getTimestamp()` string (with its `.mmm` part) parses back to its
whole-second value (representable years). -/
theorem parseTimestamp_getTimestamp (nowMs : ℕ)
    (hy : (secsToTm (nowMs / 1000)).year < 10000) :
    parseTimestamp (getTimestampStr nowMs) = some (nowMs / 1000) := by
  obtain ⟨h1, h2, h3, h4, h5⟩ := secsToTm_bounds (nowMs / 1000)
  have hr := parseTimestamp_render (secsToTm (nowMs / 1000))
      (('.' :: pad3 (nowMs % 1000)) ++ ['Z']) hy h1 h2 h3 h4 h5
  rw [tmToSecs_secsToTm] at hr
  unfold getTimestampStr
  simpa [List.append_assoc] using hr

/-- A null-tested `JsonValue` is the null value. -/
theorem Json.eq_null_of_isNull {j : Json} (h : j.isNull = true) : j = .null := by
  cases j <;> simp [Json.isNull] at h ⊢

/-- Appending an entry under a different key does not change a lookup. -/
theorem lookup_append_singleton (fields : List (String × Json)) (key k : String)
    (v : Json) (h : k ≠ key) : (fields ++ [(key, v)]).lookup k = fields.lookup k := by
  induction fields with
  | nil =>
      have hb : (k == key) = false := beq_eq_false_iff_ne.mpr h
      simp [List.lookup, hb]
  | cons head tail ih =>
      cases head with
      | mk a b => simp [List.lookup, ih]

/-- Decoding an encoded envelope recovers every field except the
timestamp, which becomes the parse of the written wire string: the
truncated explicit instant, or the serialization instant when absent. -/
theorem deserialize_serialize (m : Message) (now : ℕ) :
    deserialize (serialize m now) =
      .ok { m with timestamp :=
        (parseTimestamp (match m.timestamp with
          | some t => formatTimestampSec (t / 1000)
          | none => getTimestampStr now)).map (1000 * ·) } := by
  by_cases hsub : m.subject = "" <;>
    by_cases hpay : m.payload.isNull = true <;>
    cases hcor : m.correlationId <;>
    cases hdev : m.deviceId <;>
    cases hts : m.timestamp <;>
    simp [serialize, deserialize, Json.containsKey, Json.getKey, getInt, getStr,
      List.lookup, hsub, hpay, hcor, hdev, hts,
      Json.eq_null_of_isNull, Option.getD]
  all_goals
    first
    | rfl
    | (try simp [Json.eq_null_of_isNull hpay])

/-- C6 counterexample: an envelope whose explicit timestamp is 500 ms
after the epoch decodes, after encoding, to 0 ms — `serialize` formats an
explicit timestamp through `to_time_t` and `"%Y-%m-%dT%H:%M:%S"` with no
millisecond part, so the set timestamp does not survive the round trip
unchanged. -/
theorem claim_C6_counterexample :
    deserialize (serialize ({ timestamp := some 500 } : Message) 0) =
      .ok ({ timestamp := some 0 } : Message) ∧
    ({ timestamp := some 500 } : Message).timestamp ≠
      ({ timestamp := some 0 } : Message).timestamp :=
  ⟨rfl, by simp⟩

/-- C6 (amended): decoding an encoded envelope recovers the type, subject
(absent/empty equivalent), payload (absent/null equivalent),
correlationId and deviceId exactly; the timestamp does not survive in
general — an explicitly set timestamp comes back truncated to whole
seconds (for representable years), and an absent one comes back as the
serialization instant, so only whole-second explicit timestamps round-trip
unchanged. -/
theorem claim_C6 :
    (∀ (m : Message) (now : ℕ), ∃ ts,
        deserialize (serialize m now) = .ok { m with timestamp := ts }) ∧
    (∀ (m : Message) (t now : ℕ), m.timestamp = some t →
        (secsToTm (t / 1000)).year < 10000 →
        deserialize (serialize m now) = .ok { m with timestamp := some (1000 * (t / 1000)) }) ∧
    deserialize (serialize ({ timestamp := some 1000 } : Message) 0) =
      .ok ({ timestamp := some 1000 } : Message) := by
  refine ⟨fun m now => ⟨_, deserialize_serialize m now⟩, ?_, rfl⟩
  intro m t now hts hy
  rw [deserialize_serialize m now]
  simp only [hts]
  rw [parseTimestamp_format _ hy]
  rfl

/-- Witness for C6: a 1500 ms explicit timestamp encodes and decodes to
1000 ms — whole-second truncation. -/
theorem claim_C6_witness :
    ({ timestamp := some 1500 } : Message).timestamp = some 1500 ∧
    (secsToTm (1500 / 1000)).year < 10000 ∧
    deserialize (serialize ({ timestamp := some 1500 } : Message) 0) =
      .ok ({ timestamp := some 1000 } : Message) :=
  ⟨rfl, by decide, by
    have h := claim_C6.2.1 { timestamp := some 1500 } 1500 0 rfl (by decide)
    simpa using h⟩

/-- C9 counterexample: the input `{"type": 42}` — an integer outside the
defined range Publish=0 … Pong=10 — does not produce a ParseError:
`deserialize` installs the value with an unchecked `static_cast` and
returns a Message whose raw type is 42. -/
theorem claim_C9_counterexample :
    deserialize (.obj [("type", Json.int 42)]) = .ok ({ type := 42 } : Message) ∧
    ¬ ((0 : ℤ) ≤ 42 ∧ (42 : ℤ) ≤ 10) :=
  ⟨rfl, by decide⟩

/-- C9 (amended): `deserialize` accepts every integer `type` value,
storing the raw integer without a range check (unknown values do not
produce a ParseError); unknown extra fields are ignored without error. -/
theorem claim_C9 :
    (∀ n : ℤ, deserialize (.obj [("type", Json.int n)]) = .ok ({ type := n } : Message)) ∧
    (∀ (fields : List (String × Json)) (key : String) (v : Json),
        key ∉ ["type", "subject", "payload", "correlationId", "timestamp", "deviceId"] →
        deserialize (.obj (fields ++ [(key, v)])) = deserialize (.obj fields)) := by
  constructor
  · intro n
    rfl
  · intro fields key v h
    have hne : ∀ k, k ∈ ["type", "subject", "payload", "correlationId", "timestamp",
        "deviceId"] → k ≠ key := fun k hk hcontra => h (hcontra ▸ hk)
    have h1 := lookup_append_singleton fields key "type" v (hne _ (by simp))
    have h2 := lookup_append_singleton fields key "subject" v (hne _ (by simp))
    have h3 := lookup_append_singleton fields key "payload" v (hne _ (by simp))
    have h4 := lookup_append_singleton fields key "correlationId" v (hne _ (by simp))
    have h5 := lookup_append_singleton fields key "timestamp" v (hne _ (by simp))
    have h6 := lookup_append_singleton fields key "deviceId" v (hne _ (by simp))
    simp only [deserialize, Json.containsKey, Json.getKey, h1, h2, h3, h4, h5, h6]

/-- Witness for C9: an unknown field "zzz" next to a type field changes
nothing. -/
theorem claim_C9_witness :
    ("zzz" : String) ∉ ["type", "subject", "payload", "correlationId", "timestamp",
      "deviceId"] ∧
    deserialize (.obj ([("type", Json.int 3)] ++ [("zzz", Json.bool true)])) =
      deserialize (.obj [("type", Json.int 3)]) :=
  ⟨by decide, claim_C9.2 [("type", Json.int 3)] "zzz" (Json.bool true) (by decide)⟩

/-- Witness for C5: the first scenario-3 call — jitter disabled, attempts
remaining — yields delay 100 and attempt count 1. -/
theorem claim_C5_witness :
    scenario3Policy.jitterEnabled = false ∧
    shouldReconnect scenario3Policy = true ∧
    getNextDelay scenario3Policy 0 =
      ((100 : ℤ), { scenario3Policy with attemptCount := 1 }) :=
  ⟨rfl, by decide, by
    have h := claim_C5.2.1 scenario3Policy rfl (by decide)
    simpa [scenario3Policy] using h⟩

/-- Witness for C10: on the disabled Connected engine, a transport loss
goes straight to Disconnected with the `onDisconnected` callback, and a
poll tick fires no `onReconnecting`. -/
theorem claim_C10_witness :
    disabledEngine.conn ≠ .Disconnected ∧
    disabledEngine.conn ≠ .Closed ∧
    disabledEngine.policy.enabled = false ∧
    (step disabledEngine (.transportClosed "lost")).1.conn = .Disconnected ∧
    Action.cbDisconnected "lost" ∈ (step disabledEngine (.transportClosed "lost")).2 ∧
    Action.cbReconnecting 1 ∉ (step disabledEngine (.poll 0)).2 :=
  ⟨by decide, by decide, rfl,
    (claim_C10.2.2.2 disabledEngine "lost" rfl).1,
    (claim_C10.2.2.2 disabledEngine "lost" rfl).2,
    claim_C10.2.2.1 disabledEngine (.poll 0) 1 rfl⟩

end Gateway
